import Mathlib

/-!
Verification development for the moomin-lib-bot Telegram library bot.

The bot (src/bot.py) is a `ConversationHandler`-driven dialog state machine
over a MongoDB repository (src/database.py).  This file shallowly embeds the
conversation states, the per-user scratch dictionary (`context.user_data`),
the repository collections and each handler function, and proves the frozen
claims about them.

Modelling conventions:
  * Mongo `ObjectId`s are opaque; they are modelled as `Nat` assigned from a
    fresh counter on insertion.
  * `datetime.now()` timestamps are opaque `Nat`s passed into each turn; the
    `strftime` rendering is modelled as an uninterpreted `toString`.
  * `random.choice(animal_emojis)` is modelled by an oracle `String`
    parameter supplied to each turn (each draw in one turn yields the oracle
    value).
  * Storage unavailability is modelled by a per-turn failure point
    `fuel : Option Nat` (`callOk`): `none` keeps every repository call of
    the turn healthy, `some k` makes the k-th call (in the order the
    handler issues them) and every later one raise, with the earlier calls —
    including writes — already performed.  python-telegram-bot surfaces the
    exception to the registered `error` callback, which only logs: the
    conversation state is left unchanged and nothing is sent to the user.
    Raising is modelled by `Except (UserData × DB)`, the payload being
    `context.user_data` and the collections as mutated so far in the turn.
    `turn` specialises this to healthy storage (`none`) or storage down
    from the first call on (`some 0`).
  * A `KeyError` on a missing `context.user_data` key is likewise modelled by
    the `Except` error path.
  * Python `int(...)` is modelled for optional surrounding ASCII whitespace,
    an optional sign and ASCII digits (underscore grouping and non-ASCII
    digits are not modelled; no claim depends on them).
-/

namespace MoominBot

/-- Conversation states, `range(12)` constants of src/bot.py (MAIN_MENU = 0 …
DEPOSIT_AMOUNT = 11).  `ADD_READER` and `READER_BOOKS` are declared in the
source but have no handler registered in the `ConversationHandler`. -/
inductive BotState where
  | MAIN_MENU
  | ADD_READER
  | READER_NAME
  | READER_CONTACT
  | CONFIRM_READER
  | PROCESS_BOOK
  | CHOOSE_READER
  | CONFIRM_BOOK
  | RETURN_BOOK
  | READER_BOOKS
  | SELECT_READER_FOR_BOOKS
  | DEPOSIT_AMOUNT
  deriving DecidableEq, Repr

/-- Menu-button captions of src/bot.py. -/
def ACTION_ADD_READER : String := "➕ Новый читатель"

def ACTION_GET_LOANS : String := "📚 Список выданных книг"

def ACTION_CHECK_OUT_BOOK : String := "📕 Выдать"

def ACTION_RETURN_BOOK : String := "🔄 Вернуть"

def ACTION_ALL_READERS : String := "👥 Список читателей"

def ACTION_SELECT_READER_FOR_BOOKS : String := "📋 Книги читателя"

def ACTION_BACK : String := "⬅️ Назад"

def YES_BTN : String := "✅ да"

def NO_BTN : String := "❌ нет"

/-- A document of the `readers` collection. -/
structure Reader where
  rid : Nat
  name : String
  contact : String
  deposit_amount : Int
  registration_date : Nat
  deriving DecidableEq, Repr

/-- A document of the `loans` collection. -/
structure Loan where
  reader_id : Nat
  book_title : String
  loan_date : Nat
  is_active : Bool
  return_date : Option Nat
  deriving DecidableEq, Repr

/-- The two collections of `library_db`, plus the fresh-id counter standing
for Mongo's `ObjectId` generation. -/
structure DB where
  readers : List Reader
  loans : List Loan
  nextId : Nat
  deriving DecidableEq, Repr

/-- `MongoDBHandler.get_all_readers`: `readers.find()` in natural
(insertion) order. -/
def get_all_readers (db : DB) : List Reader :=
  db.readers

/-- `MongoDBHandler.get_reader_by_id`: `readers.find_one({"_id": rid})`. -/
def get_reader_by_id (db : DB) (rid : Nat) : Option Reader :=
  db.readers.find? (fun r => r.rid == rid)

/-- `MongoDBHandler.get_reader_by_name`: `readers.find_one({"name": name})`,
the first match in natural order. -/
def get_reader_by_name (db : DB) (name : String) : Option Reader :=
  db.readers.find? (fun r => r.name == name)

/-- `MongoDBHandler.add_reader`: `readers.insert_one(reader_data)` with a
fresh id. -/
def add_reader (db : DB) (name contact : String) (deposit : Int)
    (regDate : Nat) : DB :=
  { db with
    readers := db.readers ++ [⟨db.nextId, name, contact, deposit, regDate⟩]
    nextId := db.nextId + 1 }

/-- `readers.update_one({"_id": rid}, {"$set": {"deposit_amount": amount}})`:
updates the first (in natural order) reader with the given id. -/
def setDeposit (rid : Nat) (amount : Int) : List Reader → List Reader
  | [] => []
  | r :: rest =>
    if r.rid == rid then { r with deposit_amount := amount } :: rest
    else r :: setDeposit rid amount rest

/-- `MongoDBHandler.update_reader_deposit` (its `modified_count` result is
never used by the bot and is not modelled). -/
def update_reader_deposit (db : DB) (rid : Nat) (amount : Int) : DB :=
  { db with readers := setDeposit rid amount db.readers }

/-- `MongoDBHandler.add_loan`: `loans.insert_one(loan_data)`. -/
def add_loan (db : DB) (l : Loan) : DB :=
  { db with loans := db.loans ++ [l] }

/-- `MongoDBHandler.get_active_loans`: `loans.find({"is_active": True})`. -/
def get_active_loans (db : DB) : List Loan :=
  db.loans.filter (fun l => l.is_active)

/-- `MongoDBHandler.get_reader_active_loans`:
`loans.find({"reader_id": rid, "is_active": True})`. -/
def get_reader_active_loans (db : DB) (rid : Nat) : List Loan :=
  db.loans.filter (fun l => l.reader_id == rid && l.is_active)

/-- The filter of `MongoDBHandler.return_book`'s `update_one`:
`{"reader_id": rid, "book_title": title, "is_active": True}`. -/
def loanMatches (rid : Nat) (title : String) (l : Loan) : Bool :=
  l.reader_id == rid && l.book_title == title && l.is_active

/-- `update_one` semantics: close the first loan (in natural order) matching
the `return_book` filter, leaving every other document untouched. -/
def closeFirst (rid : Nat) (title : String) (now : Nat) :
    List Loan → List Loan
  | [] => []
  | l :: rest =>
    if loanMatches rid title l then
      { l with is_active := false, return_date := some now } :: rest
    else l :: closeFirst rid title now rest

/-- `MongoDBHandler.return_book`: returns `modified_count > 0` (closing an
active loan always modifies the document, so this is exactly "some loan
matched") together with the updated collection. -/
def db_return_book (db : DB) (rid : Nat) (title : String) (now : Nat) :
    Bool × DB :=
  (db.loans.any (loanMatches rid title),
   { db with loans := closeFirst rid title now db.loans })

/-- Python `str.split(": ")` specialised to the separator actually used by
`return_book` in src/bot.py, on the character list of the string; leftmost,
non-overlapping occurrences. -/
def splitCS : List Char → List (List Char)
  | [] => [[]]
  | [c] => [[c]]
  | c1 :: c2 :: rest =>
    if c1 = ':' ∧ c2 = ' ' then [] :: splitCS rest
    else
      match splitCS (c2 :: rest) with
      | [] => [[c1]]
      | p :: ps => (c1 :: p) :: ps

/-- Python `str.strip()` (default whitespace). -/
def pyStrip (s : List Char) : List Char :=
  ((s.dropWhile Char.isWhitespace).reverse.dropWhile Char.isWhitespace).reverse

/-- Accumulating ASCII decimal reader for `parsePyInt`. -/
def digitsVal (acc : Nat) : List Char → Option Nat
  | [] => some acc
  | c :: rest =>
    if c.isDigit then digitsVal (acc * 10 + (c.toNat - 48)) rest else none

/-- Python `int(choice)` as used by `deposit_amount_input`: strip
whitespace, optional sign, one or more digits; `none` models the
`ValueError`. -/
def parsePyInt (s : String) : Option Int :=
  match pyStrip s.data with
  | [] => none
  | '+' :: ds =>
    if ds = [] then none else (digitsVal 0 ds).map Int.ofNat
  | '-' :: ds =>
    if ds = [] then none else (digitsVal 0 ds).map (fun n => -(Int.ofNat n))
  | ds => (digitsVal 0 ds).map Int.ofNat

/-- The parsing step of `return_book` in src/bot.py:
`reader_name, book_title = choice.split(": ")` followed by `.strip()` on
both; `none` models the `ValueError` of unpacking anything but two parts. -/
def parseReturnChoice (choice : String) : Option (String × String) :=
  match splitCS choice.data with
  | [n, t] => some (⟨pyStrip n⟩, ⟨pyStrip t⟩)
  | _ => none

/-- The button caption generated for one active loan by the
`ACTION_RETURN_BOOK` branch of `main_menu`:
`f-string "{reader['name']}: {loan['book_title']}"`. -/
def returnLabel (r : Reader) (l : Loan) : String :=
  r.name ++ ": " ++ l.book_title

/-- Resolution of a `RETURN_BOOK` selection back to a
`(reader id, book title)` pair: the parse plus `get_reader_by_name` steps of
`return_book` in src/bot.py. -/
def resolveReturnChoice (db : DB) (choice : String) : Option (Nat × String) :=
  match parseReturnChoice choice with
  | none => none
  | some (n, t) =>
    match get_reader_by_name db n with
    | none => none
    | some r => some (r.rid, t)

/-- The per-user `context.user_data` dictionary, keyed by the six keys the
handlers write.  Keys absent from the dictionary are `none`; a read of an
absent key raises `KeyError`.  Note `choose_reader` stores the full reader
document snapshot under `selected_reader`. -/
structure UserData where
  reader_name : Option String
  reader_contact : Option String
  selected_reader : Option Reader
  book_title : Option String
  pending_book : Option String
  deposit_needed : Option Int
  deriving DecidableEq, Repr

/-- A fresh `context.user_data` with no keys set. -/
def UserData.empty : UserData :=
  ⟨none, none, none, none, none, none⟩

/-- Result of a handler that ran to completion: the returned conversation
state, the scratch and collections after the turn, and the texts of the
`reply_text` calls in order (keyboards are not part of the observable
output modelled here; the return-flow captions are covered by
`returnLabel`/`buildReturnLabels`). -/
structure TurnOut where
  state : BotState
  ud : UserData
  db : DB
  msgs : List String
  deriving DecidableEq, Repr

/-- Repository availability during one turn: `none` — storage healthy for
the whole turn; `some k` — the storage dies mid-turn: the first `k`
repository calls of the turn still succeed and the `k`-th call (0-based)
and every later one raise.  `some 0` is unavailability from the turn's
first call on.  A raising call performs no write; writes made by the
earlier, successful calls of the same turn persist (nothing is rolled
back), so the exception payload below carries the collections as mutated
so far. -/
def callOk (fuel : Option Nat) (i : Nat) : Bool :=
  match fuel with
  | none => true
  | some k => decide (i < k)

/-- The `start` handler: replies with the main-menu prompt and returns
`MAIN_MENU`; it touches neither `context.user_data` nor the database. -/
def startH (ud : UserData) (db : DB) : TurnOut :=
  ⟨BotState.MAIN_MENU, ud, db, ["Выберите действие:"]⟩

/-- The keyboard captions built by the `ACTION_RETURN_BOOK` branch of
`main_menu`: one `get_reader_by_id` repository call per loan (the call
counter `c` continues the turn's numbering); `.error` models both a raising
repository call and the `TypeError` raised by `reader["name"]` when
`get_reader_by_id` found no document. -/
def buildReturnLabels (db : DB) (ud : UserData) (fuel : Option Nat) :
    Nat → List Loan → Except (UserData × DB) (List String)
  | _, [] => .ok []
  | c, l :: rest =>
    if callOk fuel c = false then .error (ud, db)
    else
      match get_reader_by_id db l.reader_id with
      | none => .error (ud, db)
      | some r =>
        match buildReturnLabels db ud fuel (c + 1) rest with
        | .error e => .error e
        | .ok ls => .ok (returnLabel r l :: ls)

/-- Opaque rendering of a timestamp; stands for
`strftime("%d.%m.%Y")` whose exact text no claim depends on. -/
def fmtDate (t : Nat) : String :=
  toString t

/-- The 1-indexed listing built by the `ACTION_ALL_READERS` branch. -/
def readersListing : Nat → List Reader → String
  | _, [] => ""
  | i, r :: rest =>
    toString i ++ ". " ++ r.name ++ ": " ++ r.contact ++ "\n" ++
      readersListing (i + 1) rest

/-- The 1-indexed listing built by the `ACTION_GET_LOANS` branch, with one
`get_reader_by_id` repository call per loan (call counter `c`); `.error`
models a raising call and the `TypeError` on a loan whose reader is
missing. -/
def loansListing (db : DB) (ud : UserData) (fuel : Option Nat) :
    Nat → Nat → List Loan → Except (UserData × DB) String
  | _, _, [] => .ok ""
  | i, c, l :: rest =>
    if callOk fuel c = false then .error (ud, db)
    else
      match get_reader_by_id db l.reader_id with
      | none => .error (ud, db)
      | some r =>
        match loansListing db ud fuel (i + 1) (c + 1) rest with
        | .error e => .error e
        | .ok s =>
          .ok (toString i ++ ". \"" ++ l.book_title ++ "\" - " ++ r.name ++
            " (" ++ fmtDate l.loan_date ++ ")\n" ++ s)

/-- The per-reader loan listing of `select_reader_for_books`. -/
def readerLoansListing : Nat → List Loan → String
  | _, [] => ""
  | i, l :: rest =>
    toString i ++ ". " ++ l.book_title ++ " (выдана " ++ fmtDate l.loan_date ++
      ")\n" ++ readerLoansListing (i + 1) rest

/-- The full reply of `select_reader_for_books` for a reader with loans,
including the deposit line added only when `deposit_amount > 0`. -/
def readerBooksMsg (r : Reader) (loans : List Loan) : String :=
  let base := "Книги, выданные читателю " ++ r.name ++ ":\n\n" ++
    readerLoansListing 1 loans
  if r.deposit_amount > 0 then
    base ++ "\nТекущий залог: " ++ toString r.deposit_amount ++ " евро"
  else base

/-- Handler `main_menu` of src/bot.py.  Every branch makes only read
repository calls, numbered from 0 within the turn. -/
def main_menuH (choice : String) (ud : UserData) (db : DB) (emoji : String)
    (fuel : Option Nat) : Except (UserData × DB) TurnOut :=
  if choice = ACTION_ADD_READER then
    .ok ⟨BotState.READER_NAME, ud, db, ["📝 Имя:"]⟩
  else if choice = ACTION_CHECK_OUT_BOOK then
    if callOk fuel 0 = false then .error (ud, db)
    else if get_all_readers db = [] then
      .ok ⟨BotState.MAIN_MENU, ud, db, ["❌ Нет читателей.", "Выберите действие:"]⟩
    else
      .ok ⟨BotState.CHOOSE_READER, ud, db, ["🔎 Кому выдать книгу?"]⟩
  else if choice = ACTION_RETURN_BOOK then
    if callOk fuel 0 = false then .error (ud, db)
    else if get_active_loans db = [] then
      .ok ⟨BotState.MAIN_MENU, ud, db, ["❌ Пусто.", "Выберите действие:"]⟩
    else
      match buildReturnLabels db ud fuel 1 (get_active_loans db) with
      | .error e => .error e
      | .ok _labels =>
        .ok ⟨BotState.RETURN_BOOK, ud, db, ["🔎 Какую книгу вернуть?"]⟩
  else if choice = ACTION_ALL_READERS then
    if callOk fuel 0 = false then .error (ud, db)
    else if get_all_readers db = [] then
      .ok ⟨BotState.MAIN_MENU, ud, db, ["❌ Никого нет.", "Выберите действие:"]⟩
    else
      .ok ⟨BotState.MAIN_MENU, ud, db,
        [readersListing 1 (get_all_readers db), "Выберите действие:"]⟩
  else if choice = ACTION_GET_LOANS then
    if callOk fuel 0 = false then .error (ud, db)
    else if get_active_loans db = [] then
      .ok ⟨BotState.MAIN_MENU, ud, db, ["❌ Ничего не выдано.", "Выберите действие:"]⟩
    else
      match loansListing db ud fuel 1 1 (get_active_loans db) with
      | .error e => .error e
      | .ok s =>
        .ok ⟨BotState.MAIN_MENU, ud, db, [s, "Выберите действие:"]⟩
  else if choice = ACTION_SELECT_READER_FOR_BOOKS then
    if callOk fuel 0 = false then .error (ud, db)
    else if get_all_readers db = [] then
      .ok ⟨BotState.MAIN_MENU, ud, db, ["❌ Нет читателей.", "Выберите действие:"]⟩
    else
      .ok ⟨BotState.SELECT_READER_FOR_BOOKS, ud, db, ["🔎 Выбрите читателя:"]⟩
  else
    .ok ⟨BotState.MAIN_MENU, ud, db, [emoji ++ " " ++ emoji ++ " " ++ emoji]⟩

/-- Handler `reader_name`: stores the supplied text with a random emoji
appended (`f-string "{update.message.text} {get_random_animal_emoji()}"`). -/
def reader_nameH (text : String) (ud : UserData) (db : DB) (emoji : String) :
    Except (UserData × DB) TurnOut :=
  .ok ⟨BotState.READER_CONTACT,
    { ud with reader_name := some (text ++ " " ++ emoji) }, db,
    ["☎️ Контактные данные (телефон, e-mail, telegram, etc.):"]⟩

/-- Handler `reader_contact`: stores the contact, then echoes both scratch
values (reading `reader_name` raises `KeyError` if it was never set). -/
def reader_contactH (text : String) (ud : UserData) (db : DB) :
    Except (UserData × DB) TurnOut :=
  match ud.reader_name with
  | none => .error ({ ud with reader_contact := some text }, db)
  | some n =>
    .ok ⟨BotState.CONFIRM_READER, { ud with reader_contact := some text }, db,
      ["Имя: " ++ n ++ "\nКонтакт: " ++ text]⟩

/-- Handler `confirm_reader`: on the Yes button inserts the reader collected
in scratch with `deposit_amount = 0`; in either case falls through to
`start`. -/
def confirm_readerH (text : String) (ud : UserData) (db : DB) (now : Nat)
    (fuel : Option Nat) : Except (UserData × DB) TurnOut :=
  if text = YES_BTN then
    match ud.reader_name, ud.reader_contact with
    | some n, some c =>
      if callOk fuel 0 = false then .error (ud, db)
      else
        .ok ⟨BotState.MAIN_MENU, ud, add_reader db n c 0 now,
          ["Читатель " ++ n ++ " добавлен!", "Выберите действие:"]⟩
    | _, _ => .error (ud, db)
  else
    .ok ⟨BotState.MAIN_MENU, ud, db, ["Галя, у нас отмена!", "Выберите действие:"]⟩

/-- Handler `choose_reader`: back button, unknown-name re-prompt, or store
the matched reader snapshot in scratch. -/
def choose_readerH (choice : String) (ud : UserData) (db : DB)
    (fuel : Option Nat) : Except (UserData × DB) TurnOut :=
  if choice = ACTION_BACK then .ok (startH ud db)
  else if callOk fuel 0 = false then .error (ud, db)
  else
    match get_reader_by_name db choice with
    | none => .ok ⟨BotState.CHOOSE_READER, ud, db, ["Читатель не найден."]⟩
    | some r =>
      .ok ⟨BotState.PROCESS_BOOK, { ud with selected_reader := some r }, db,
        ["✏️ Название книги, которую получит " ++ r.name ++ ":"]⟩

/-- Handler `process_book`: stores the title, then branches on whether the
selected reader currently has active loans: none → prompt for a deposit;
some → pending deposit 0 and go straight to confirmation. -/
def process_bookH (text : String) (ud : UserData) (db : DB)
    (fuel : Option Nat) : Except (UserData × DB) TurnOut :=
  match ud.selected_reader with
  | none => .error ({ ud with book_title := some text }, db)
  | some r =>
    if callOk fuel 0 = false then
      .error ({ ud with book_title := some text }, db)
    else if get_reader_active_loans db r.rid = [] then
      .ok ⟨BotState.DEPOSIT_AMOUNT,
        { ud with book_title := some text, pending_book := some text }, db,
        ["Введите сумму залога для " ++ r.name ++ " или выберите сумму:"]⟩
    else
      .ok ⟨BotState.CONFIRM_BOOK,
        { ud with book_title := some text, deposit_needed := some 0 }, db,
        [r.name ++ " уже имеет активные выдачи книг. Залог не требуется.\n\nВыдаем \"" ++
          text ++ "\"?"]⟩

/-- Handler `deposit_amount_input`: reads the scratch keys first (as the
source does), then back button, then `int(choice)`: any integer string is
accepted as the pending deposit, non-integers re-prompt. -/
def deposit_amount_inputH (choice : String) (ud : UserData) (db : DB) :
    Except (UserData × DB) TurnOut :=
  match ud.selected_reader, ud.pending_book with
  | some r, some bt =>
    if choice = ACTION_BACK then .ok (startH ud db)
    else
      match parsePyInt choice with
      | none =>
        .ok ⟨BotState.DEPOSIT_AMOUNT, ud, db, ["Не, нужно же было ввести число!"]⟩
      | some d =>
        .ok ⟨BotState.CONFIRM_BOOK,
          { ud with deposit_needed := some d, book_title := some bt }, db,
          ["Читатель: " ++ r.name ++ "\nКнига: " ++ bt ++ "\nЗалог: " ++
            toString d ++ "\n\nВсё верно?"]⟩
  | _, _ => .error (ud, db)

/-- Handler `confirm_book`: on Yes, update the deposit only when the pending
amount is strictly positive (repository call 0 of that path), then insert
the loan (call 1; call 0 when no deposit write happens); the confirmation
text carries the deposit sentence exactly when the update happened.  A
failing `add_loan` after a successful deposit update leaves the written
deposit behind — the payload carries the mutated collections. -/
def confirm_bookH (text : String) (ud : UserData) (db : DB) (now : Nat)
    (fuel : Option Nat) : Except (UserData × DB) TurnOut :=
  if text = YES_BTN then
    match ud.selected_reader, ud.book_title, ud.deposit_needed with
    | some r, some bt, some d =>
      let loan : Loan := ⟨r.rid, bt, now, true, none⟩
      if d > 0 then
        if callOk fuel 0 = false then .error (ud, db)
        else
          let db2 := update_reader_deposit db r.rid d
          if callOk fuel 1 = false then .error (ud, db2)
          else
            .ok ⟨BotState.MAIN_MENU, ud, add_loan db2 loan,
              ["Книга \x22" ++ bt ++ "\x22 выдана " ++ r.name ++ ". Залог " ++
                toString d ++ " получен.", "Выберите действие:"]⟩
      else
        if callOk fuel 0 = false then .error (ud, db)
        else
          .ok ⟨BotState.MAIN_MENU, ud, add_loan db loan,
            ["Книга \x22" ++ bt ++ "\x22 выдана " ++ r.name ++ ".",
             "Выберите действие:"]⟩
    | _, _, _ => .error (ud, db)
  else
    .ok ⟨BotState.MAIN_MENU, ud, db, ["Галя, у нас отмена!", "Выберите действие:"]⟩

/-- Handler `return_book` of src/bot.py: back button; parse the compound
label; resolve the reader by (first-match) name (repository call 0); close
the first matching active loan (call 1); if the reader then has no active
loans left (call 2), reset the deposit to 0 (call 3) and report the amount
read from the document fetched before the reset.  A failure at call 2 or 3
happens after the loan was already closed, so the payload carries the
mutated collection. -/
def return_bookH (choice : String) (ud : UserData) (db : DB) (now : Nat)
    (fuel : Option Nat) : Except (UserData × DB) TurnOut :=
  if choice = ACTION_BACK then .ok (startH ud db)
  else
    match parseReturnChoice choice with
    | none =>
      .ok ⟨BotState.RETURN_BOOK, ud, db,
        ["Что-то не так с выбором. Пожалуйста, выберите из списка."]⟩
    | some (n, t) =>
      if callOk fuel 0 = false then .error (ud, db)
      else
        match get_reader_by_name db n with
        | none => .ok ⟨BotState.RETURN_BOOK, ud, db, ["Читатель не найден."]⟩
        | some r =>
          if callOk fuel 1 = false then .error (ud, db)
          else
            let res := db_return_book db r.rid t now
            if res.1 then
              if callOk fuel 2 = false then .error (ud, res.2)
              else if get_reader_active_loans res.2 r.rid = [] then
                if callOk fuel 3 = false then .error (ud, res.2)
                else
                  .ok ⟨BotState.MAIN_MENU, ud,
                    update_reader_deposit res.2 r.rid 0,
                    ["Книга \x22" ++ t ++ "\x22 возвращена.\nЭто последняя книга " ++
                      n ++ ". Верните залог " ++ toString r.deposit_amount ++ ".",
                     "Выберите действие:"]⟩
              else
                .ok ⟨BotState.MAIN_MENU, ud, res.2,
                  ["Книга \x22" ++ t ++ "\x22 возвращена.", "Выберите действие:"]⟩
            else
              .ok ⟨BotState.MAIN_MENU, ud, res.2,
                ["Произошла ошибка при обработке возврата книги.",
                 "Выберите действие:"]⟩

/-- Handler `select_reader_for_books`: two read repository calls
(`get_reader_by_name` then, once a reader matched, its active loans). -/
def select_reader_for_booksH (choice : String) (ud : UserData) (db : DB)
    (fuel : Option Nat) : Except (UserData × DB) TurnOut :=
  if choice = ACTION_BACK then .ok (startH ud db)
  else if callOk fuel 0 = false then .error (ud, db)
  else
    match get_reader_by_name db choice with
    | none =>
      .ok ⟨BotState.SELECT_READER_FOR_BOOKS, ud, db,
        ["Читатель не найден. Пожалуйста, выберите из списка."]⟩
    | some r =>
      if callOk fuel 1 = false then .error (ud, db)
      else if get_reader_active_loans db r.rid = [] then
        .ok ⟨BotState.MAIN_MENU, ud, db,
          ["У читателя " ++ r.name ++ " нет активных выдач книг.",
           "Выберите действие:"]⟩
      else
        .ok ⟨BotState.MAIN_MENU, ud, db,
          [readerBooksMsg r (get_reader_active_loans db r.rid),
           "Выберите действие:"]⟩

/-- Telegram command filter: the `MessageHandler`s are registered with
`filters.TEXT & ~filters.COMMAND`, so a text starting with `/` reaches no
state handler. -/
def isCommand (text : String) : Bool :=
  match text.data with
  | '/' :: _ => true
  | _ => false

/-- Routing of the `ConversationHandler` states table: `CONFIRM_READER` and
`CONFIRM_BOOK` are gated by `filters.Regex("^(✅ да|❌ нет)$")` (no handler
fires on other text); `ADD_READER` and `READER_BOOKS` have no entry. -/
def dispatch (st : BotState) (text : String) (ud : UserData) (db : DB)
    (now : Nat) (emoji : String) (fuel : Option Nat) :
    Except (UserData × DB) TurnOut :=
  match st with
  | .MAIN_MENU => main_menuH text ud db emoji fuel
  | .READER_NAME => reader_nameH text ud db emoji
  | .READER_CONTACT => reader_contactH text ud db
  | .CONFIRM_READER =>
    if text = YES_BTN ∨ text = NO_BTN then confirm_readerH text ud db now fuel
    else .ok ⟨st, ud, db, []⟩
  | .CHOOSE_READER => choose_readerH text ud db fuel
  | .PROCESS_BOOK => process_bookH text ud db fuel
  | .DEPOSIT_AMOUNT => deposit_amount_inputH text ud db
  | .CONFIRM_BOOK =>
    if text = YES_BTN ∨ text = NO_BTN then confirm_bookH text ud db now fuel
    else .ok ⟨st, ud, db, []⟩
  | .RETURN_BOOK => return_bookH text ud db now fuel
  | .SELECT_READER_FOR_BOOKS => select_reader_for_booksH text ud db fuel
  | .ADD_READER => .ok ⟨st, ud, db, []⟩
  | .READER_BOOKS => .ok ⟨st, ud, db, []⟩

/-- One turn of the conversation for one user, with an explicit failure
point.  `/start` is both the entry point and the fallback of the
`ConversationHandler`, so from any state it runs `start` (which clears
nothing); other commands reach no handler; a raised exception (storage
failure at any repository call, `KeyError`, `TypeError`) is dispatched to
the `error` callback, which only logs: the conversation state is left as it
was, the user is sent nothing, and the collections keep the writes already
performed in the turn. -/
def turnF (st : BotState) (text : String) (ud : UserData) (db : DB)
    (now : Nat) (emoji : String) (fuel : Option Nat) : TurnOut :=
  if text = "/start" then ⟨BotState.MAIN_MENU, ud, db, ["Выберите действие:"]⟩
  else if isCommand text then ⟨st, ud, db, []⟩
  else
    match dispatch st text ud db now emoji fuel with
    | .ok out => out
    | .error e => ⟨st, e.1, e.2, []⟩

/-- One turn with storage either healthy for the whole turn
(`repoOk = true`) or unavailable from its first repository call on
(`repoOk = false`). -/
def turn (st : BotState) (text : String) (ud : UserData) (db : DB)
    (now : Nat) (emoji : String) (repoOk : Bool) : TurnOut :=
  turnF st text ud db now emoji (if repoOk then none else some 0)

/-- A session snapshot: conversation state, scratch and database. -/
structure Config where
  st : BotState
  ud : UserData
  db : DB
  deriving DecidableEq, Repr

/-- The inputs of one turn: the incoming text, the clock, the emoji oracle
and storage availability. -/
structure TInput where
  text : String
  now : Nat
  emoji : String
  repoOk : Bool
  deriving DecidableEq, Repr

/-- Applying one turn to a session snapshot. -/
def stepCfg (c : Config) (i : TInput) : Config :=
  let out := turn c.st i.text c.ud c.db i.now i.emoji i.repoOk
  ⟨out.state, out.ud, out.db⟩

/-- Replies produced by one turn from a snapshot. -/
def stepMsgs (c : Config) (i : TInput) : List String :=
  (turn c.st i.text c.ud c.db i.now i.emoji i.repoOk).msgs

/-- Running a whole sequence of turns. -/
def runTrace (c : Config) : List TInput → Config
  | [] => c
  | i :: rest => runTrace (stepCfg c i) rest

/-- The session right after `/start` on a fresh deployment: main menu, empty
scratch, empty collections. -/
def initConfig : Config :=
  ⟨BotState.MAIN_MENU, UserData.empty, ⟨[], [], 0⟩⟩

/-- Session snapshots reachable from a fresh deployment by any sequence of
turns. -/
inductive Reachable : Config → Prop where
  | init : Reachable initConfig
  | step (c : Config) (i : TInput) : Reachable c → Reachable (stepCfg c i)

/-- Removing the first loan with the given title from a list: the effect of
`return_book`'s `update_one` on the active-loan sublist of the targeted
reader. -/
def eraseFirstWithTitle (t : String) : List Loan → List Loan
  | [] => []
  | l :: rest =>
    if l.book_title == t then rest else l :: eraseFirstWithTitle t rest

/-- The deposit bookkeeping invariant of the database, together with the
id-freshness facts needed to maintain it: ids are unique and below the
fresh-id counter, every deposit is non-negative, and a reader with no active
loans has deposit 0. -/
def DepositInv (db : DB) : Prop :=
  (∀ r ∈ db.readers, r.rid < db.nextId) ∧
  (db.readers.map (fun r => r.rid)).Nodup ∧
  ∀ r ∈ db.readers, 0 ≤ r.deposit_amount ∧
    (get_reader_active_loans db r.rid = [] → r.deposit_amount = 0)

/-- A demo input with fixed clock, emoji oracle `🐶` and healthy storage. -/
def demoIn (t : String) : TInput :=
  ⟨t, 0, "🐶", true⟩

/-- Registration of a reader named `Ann` with contact `555-1234`. -/
def regInputs : List TInput :=
  [demoIn ACTION_ADD_READER, demoIn "Ann", demoIn "555-1234", demoIn YES_BTN]

/-- The session after registering Ann on a fresh deployment. -/
def regCfg : Config :=
  runTrace initConfig regInputs

/-- The stored document the registration of Ann produces (note the emoji
appended to the name by `reader_name`). -/
def annDoc : Reader :=
  ⟨0, "Ann 🐶", "555-1234", 0, 0⟩

/-- Checkout of `Dune` to Ann with deposit 20. -/
def duneInputs : List TInput :=
  [demoIn ACTION_CHECK_OUT_BOOK, demoIn "Ann 🐶", demoIn "Dune",
   demoIn "20", demoIn YES_BTN]

/-- The session after Ann checked out `Dune` against deposit 20. -/
def duneCfg : Config :=
  runTrace regCfg duneInputs

/-- Second checkout (`LOTR`) for Ann, stopping right at the confirmation
prompt: since Ann already has an active loan, no deposit is asked for. -/
def lotrConfirmCfg : Config :=
  runTrace duneCfg
    [demoIn ACTION_CHECK_OUT_BOOK, demoIn "Ann 🐶", demoIn "LOTR"]

/-- The session after confirming the `LOTR` checkout and then returning
`Dune`: Ann's only remaining active loan is `LOTR`, checked out without any
deposit, yet her `deposit_amount` is still 20. -/
def c7FinalCfg : Config :=
  runTrace lotrConfirmCfg
    [demoIn YES_BTN, demoIn ACTION_RETURN_BOOK, demoIn "Ann 🐶: Dune"]

/-- A checkout flow for Ann where the entered deposit is the negative
integer `-5`. -/
def negDepositCfg : Config :=
  runTrace regCfg
    [demoIn ACTION_CHECK_OUT_BOOK, demoIn "Ann 🐶", demoIn "Dune",
     demoIn "-5", demoIn YES_BTN]

/-- A checkout flow for Ann of a book whose title contains the label
separator `": "`. -/
def sepTitleCfg : Config :=
  runTrace regCfg
    [demoIn ACTION_CHECK_OUT_BOOK, demoIn "Ann 🐶", demoIn "X: Y",
     demoIn "20", demoIn YES_BTN]

/-- The session parked in the return-selection state after Ann checked out
`Dune`. -/
def returnStateCfg : Config :=
  runTrace duneCfg [demoIn ACTION_RETURN_BOOK]

/-- The database a handler leaves behind: the returned one on success, the
exception payload's one (collections as mutated before the raise) when the
handler raised. -/
def outDB (e : Except (UserData × DB) TurnOut) (db : DB) : DB :=
  match e with
  | .ok out => out.db
  | .error e2 => e2.2

theorem splitCS_ne_nil (s : List Char) : splitCS s ≠ [] := by
  induction s using splitCS.induct with
  | case1 => simp [splitCS]
  | case2 c => simp [splitCS]
  | case3 c1 c2 rest h ih => simp [splitCS, if_pos h]
  | case4 c1 c2 rest h heq ih => exact absurd heq ih
  | case5 c1 c2 rest h p ps heq ih => simp [splitCS, if_neg h, heq]

/-- A string containing no occurrence of the separator `": "` splits to the
singleton of itself; prepending such a string plus a separator to anything
splits off exactly that first field. -/
theorem splitCS_append (b : List Char) :
    ∀ a : List Char, splitCS a = [a] →
      splitCS (a ++ ':' :: ' ' :: b) = a :: splitCS b := by
  intro a
  induction a using splitCS.induct with
  | case1 =>
    intro _
    simp [splitCS]
  | case2 c =>
    intro _
    have hc : ¬(c = ':' ∧ (':' : Char) = ' ') := by
      rintro ⟨-, h2⟩
      exact absurd h2 (by decide)
    have h2 : splitCS (':' :: ' ' :: b) = [] :: splitCS b := by
      simp [splitCS]
    simp [splitCS, if_neg hc, h2]
  | case3 c1 c2 rest h ih =>
    intro hs
    exfalso
    simp [splitCS, if_pos h] at hs
  | case4 c1 c2 rest h heq ih =>
    exact absurd heq (splitCS_ne_nil _)
  | case5 c1 c2 rest h p ps heq ih =>
    intro hs
    rw [show splitCS (c1 :: c2 :: rest) =
        (if c1 = ':' ∧ c2 = ' ' then [] :: splitCS rest
         else match splitCS (c2 :: rest) with
           | [] => [[c1]]
           | p :: ps => (c1 :: p) :: ps) from rfl, if_neg h, heq] at hs
    have hp : p = c2 :: rest ∧ ps = [] := by
      constructor
      · have := congrArg List.head? hs
        simpa using this
      · have := congrArg List.tail hs
        simpa using this
    have hsingle : splitCS (c2 :: rest) = [c2 :: rest] := by
      rw [heq, hp.1, hp.2]
    have ihb := ih hsingle
    rw [show (c1 :: c2 :: rest) ++ ':' :: ' ' :: b =
        c1 :: ((c2 :: rest) ++ ':' :: ' ' :: b) from rfl]
    rw [show splitCS (c1 :: ((c2 :: rest) ++ ':' :: ' ' :: b)) =
        (if c1 = ':' ∧ c2 = ' ' then [] :: splitCS (rest ++ ':' :: ' ' :: b)
         else match splitCS ((c2 :: rest) ++ ':' :: ' ' :: b) with
           | [] => [[c1]]
           | p :: ps => (c1 :: p) :: ps) from rfl, if_neg h, ihb]

/-- Closing the first matching loan removes exactly the first loan with the
given title from the targeted reader's active-loan list. -/
theorem closeFirst_filter_self (rid : Nat) (t : String) (now : Nat)
    (ls : List Loan) :
    (closeFirst rid t now ls).filter (fun l => l.reader_id == rid && l.is_active) =
      eraseFirstWithTitle t
        (ls.filter (fun l => l.reader_id == rid && l.is_active)) := by
  induction ls with
  | nil => simp [closeFirst, eraseFirstWithTitle]
  | cons l rest ih =>
    by_cases h1 : l.reader_id = rid
    · by_cases h3 : l.is_active = true
      · by_cases h2 : l.book_title = t
        · simp [closeFirst, loanMatches, h1, h2, h3, eraseFirstWithTitle]
        · simp [closeFirst, loanMatches, h1, h2, h3, eraseFirstWithTitle, ih]
      · simp [closeFirst, loanMatches, h1, h3, ih]
    · simp [closeFirst, loanMatches, h1, ih]

/-- Closing a loan of one reader leaves every other reader's active-loan
list untouched. -/
theorem closeFirst_filter_other (rid rid2 : Nat) (hne : rid2 ≠ rid)
    (t : String) (now : Nat) (ls : List Loan) :
    (closeFirst rid t now ls).filter (fun l => l.reader_id == rid2 && l.is_active) =
      ls.filter (fun l => l.reader_id == rid2 && l.is_active) := by
  induction ls with
  | nil => simp [closeFirst]
  | cons l rest ih =>
    by_cases hm : loanMatches rid t l = true
    · have h1 : l.reader_id = rid := by
        simp [loanMatches] at hm
        exact hm.1.1
      have h12 : (l.reader_id == rid2) = false := by
        simp [h1]
        exact fun hc => hne hc.symm
      simp [closeFirst, hm, List.filter, h12]
    · simp [closeFirst, hm, List.filter, ih]

/-- `update_one` with a filter nothing matches leaves the collection
unchanged. -/
theorem closeFirst_of_not_any (rid : Nat) (t : String) (now : Nat)
    (ls : List Loan) (h : ls.any (loanMatches rid t) = false) :
    closeFirst rid t now ls = ls := by
  induction ls with
  | nil => simp [closeFirst]
  | cons l rest ih =>
    simp only [List.any_cons, Bool.or_eq_false_iff] at h
    simp [closeFirst, h.1, ih h.2]

/-- When some loan matches, `update_one` closes exactly the first matching
document and copies every other one verbatim. -/
theorem closeFirst_decomp (rid : Nat) (t : String) (now : Nat)
    (ls : List Loan) (h : ls.any (loanMatches rid t) = true) :
    ∃ pre l0 post, ls = pre ++ l0 :: post ∧
      (∀ l ∈ pre, loanMatches rid t l = false) ∧
      loanMatches rid t l0 = true ∧
      closeFirst rid t now ls =
        pre ++ { l0 with is_active := false, return_date := some now } :: post := by
  induction ls with
  | nil => simp at h
  | cons l rest ih =>
    by_cases hm : loanMatches rid t l = true
    · exact ⟨[], l, rest, by simp, by simp, hm, by simp [closeFirst, hm]⟩
    · have hrest : rest.any (loanMatches rid t) = true := by
        have hm2 : loanMatches rid t l = false := by simpa using hm
        simpa [List.any_cons, hm2] using h
      obtain ⟨pre, l0, post, he, hpre, hl0, hcf⟩ := ih hrest
      exact ⟨l :: pre, l0, post, by simp [he], by
        intro x hx
        rcases List.mem_cons.mp hx with hx | hx
        · subst hx; simpa using hm
        · exact hpre x hx, hl0, by simp [closeFirst, hm, hcf]⟩

/-- `setDeposit` does not change the id sequence of the collection. -/
theorem setDeposit_map_rid (rid : Nat) (a : Int) (rs : List Reader) :
    (setDeposit rid a rs).map (fun r => r.rid) = rs.map (fun r => r.rid) := by
  induction rs with
  | nil => simp [setDeposit]
  | cons r rest ih =>
    by_cases h : r.rid = rid
    · simp [setDeposit, h]
    · simp [setDeposit, h, ih]

/-- Looking a reader up by id after `setDeposit` on that id returns the old
document with the deposit replaced. -/
theorem find?_setDeposit (rid : Nat) (a : Int) (rs : List Reader) :
    (setDeposit rid a rs).find? (fun r => r.rid == rid) =
      (rs.find? (fun r => r.rid == rid)).map
        (fun y => { y with deposit_amount := a }) := by
  induction rs with
  | nil => simp [setDeposit]
  | cons r rest ih =>
    by_cases h : r.rid = rid
    · simp [setDeposit, h, List.find?]
    · have hb : (r.rid == rid) = false := by simpa using h
      simp [setDeposit, hb, List.find?, ih]

/-- Every document after `setDeposit` is either an old one or an old one
with its deposit replaced. -/
theorem mem_setDeposit (rid : Nat) (a : Int) (rs : List Reader) (x : Reader)
    (hx : x ∈ setDeposit rid a rs) :
    x ∈ rs ∨ ∃ y ∈ rs, y.rid = rid ∧ x = { y with deposit_amount := a } := by
  induction rs with
  | nil => simp [setDeposit] at hx
  | cons r rest ih =>
    by_cases h : r.rid = rid
    · simp only [setDeposit, h, beq_self_eq_true, if_true] at hx
      rcases List.mem_cons.mp hx with hx | hx
      · refine Or.inr ⟨r, List.mem_cons_self r rest, h, ?_⟩
        show x = ⟨r.rid, r.name, r.contact, a, r.registration_date⟩
        rw [h]
        exact hx
      · exact Or.inl (List.mem_cons_of_mem r hx)
    · have hb : (r.rid == rid) = false := by simpa using h
      simp only [setDeposit, hb, Bool.false_eq_true, if_false] at hx
      rcases List.mem_cons.mp hx with hx | hx
      · exact Or.inl (by simp [hx])
      · rcases ih hx with hx2 | ⟨y, hy, hyr, hxe⟩
        · exact Or.inl (List.mem_cons_of_mem r hx2)
        · exact Or.inr ⟨y, List.mem_cons_of_mem r hy, hyr, hxe⟩

/-- With unique ids, any document carrying the targeted id after
`setDeposit` holds the new amount. -/
theorem setDeposit_dep (rid : Nat) (a : Int) (rs : List Reader) (x : Reader)
    (hnd : (rs.map (fun r => r.rid)).Nodup)
    (hx : x ∈ setDeposit rid a rs) (hxr : x.rid = rid) :
    x.deposit_amount = a := by
  induction rs with
  | nil => simp [setDeposit] at hx
  | cons r rest ih =>
    simp only [List.map_cons, List.nodup_cons] at hnd
    by_cases h : r.rid = rid
    · simp only [setDeposit, h, beq_self_eq_true, if_true] at hx
      rcases List.mem_cons.mp hx with hx | hx
      · subst hx; rfl
      · exfalso
        have : x.rid ∈ rest.map (fun r => r.rid) := List.mem_map_of_mem _ hx
        rw [hxr, ← h] at this
        exact hnd.1 this
    · have hb : (r.rid == rid) = false := by simpa using h
      simp only [setDeposit, hb, Bool.false_eq_true, if_false] at hx
      rcases List.mem_cons.mp hx with hx | hx
      · exact absurd (hx ▸ hxr) h
      · exact ih hnd.2 hx

/-- Registration (`confirm_reader`, Yes) preserves the deposit invariant:
the new reader starts with deposit 0 and a fresh id. -/
theorem inv_add_reader (db : DB) (n c : String) (now : Nat)
    (h : DepositInv db) : DepositInv (add_reader db n c 0 now) := by
  obtain ⟨hlt, hnd, hdep⟩ := h
  refine ⟨?_, ?_, ?_⟩
  · intro r hr
    simp only [add_reader, List.mem_append, List.mem_singleton] at hr
    rcases hr with hr | hr
    · exact Nat.lt_succ_of_lt (hlt r hr)
    · subst hr; exact Nat.lt_succ_self _
  · simp only [add_reader, List.map_append, List.map_cons, List.map_nil]
    rw [List.nodup_append]
    refine ⟨hnd, List.nodup_singleton _, ?_⟩
    intro x hx hy
    simp only [List.mem_singleton] at hy
    obtain ⟨r, hr, hrx⟩ := List.mem_map.mp hx
    subst hy
    exact absurd (hrx ▸ hlt r hr) (by simp [hrx])
  · intro r hr
    simp only [add_reader, List.mem_append, List.mem_singleton] at hr
    rcases hr with hr | hr
    · obtain ⟨h1, h2⟩ := hdep r hr
      exact ⟨h1, fun ha => h2 (by simpa [get_reader_active_loans, add_reader] using ha)⟩
    · subst hr
      exact ⟨le_refl 0, fun _ => rfl⟩

/-- Inserting a loan preserves the deposit invariant: it can only grow a
reader's active-loan list. -/
theorem inv_add_loan (db : DB) (l : Loan) (h : DepositInv db) :
    DepositInv (add_loan db l) := by
  obtain ⟨hlt, hnd, hdep⟩ := h
  refine ⟨hlt, hnd, ?_⟩
  intro r hr
  obtain ⟨h1, h2⟩ := hdep r hr
  refine ⟨h1, fun ha => ?_⟩
  apply h2
  simp only [get_reader_active_loans, add_loan, List.filter_append] at ha
  exact (List.append_eq_nil.mp ha).1

/-- The checkout write pair of `confirm_book` with a positive pending
deposit — set the reader's deposit, then insert an active loan for the same
reader — preserves the deposit invariant. -/
theorem inv_checkout (db : DB) (rid : Nat) (bt : String) (now : Nat) (d : Int)
    (hd : 0 < d) (h : DepositInv db) :
    DepositInv (add_loan (update_reader_deposit db rid d)
      ⟨rid, bt, now, true, none⟩) := by
  obtain ⟨hlt, hnd, hdep⟩ := h
  refine ⟨?_, ?_, ?_⟩
  · intro r hr
    simp only [add_loan, update_reader_deposit] at hr
    rcases mem_setDeposit rid d db.readers r hr with hr2 | ⟨y, hy, -, hre⟩
    · exact hlt r hr2
    · subst hre
      exact hlt y hy
  · simp only [add_loan, update_reader_deposit]
    rw [setDeposit_map_rid]
    exact hnd
  · intro r hr
    simp only [add_loan, update_reader_deposit] at hr
    have hactive : ∀ rid2, rid2 = rid →
        get_reader_active_loans
          (add_loan (update_reader_deposit db rid d) ⟨rid, bt, now, true, none⟩)
          rid2 ≠ [] := by
      intro rid2 he
      subst he
      simp [get_reader_active_loans, add_loan, update_reader_deposit,
        List.filter_append]
    rcases mem_setDeposit rid d db.readers r hr with hr2 | ⟨y, hy, hyr, hre⟩
    · obtain ⟨h1, h2⟩ := hdep r hr2
      refine ⟨h1, fun ha => ?_⟩
      by_cases he : r.rid = rid
      · exact absurd ha (hactive r.rid he)
      · apply h2
        simp only [get_reader_active_loans, add_loan, update_reader_deposit,
          List.filter_append, List.append_eq_nil] at ha
        exact ha.1
    · subst hre
      refine ⟨le_of_lt hd, fun ha => ?_⟩
      exact absurd ha (hactive y.rid hyr)

/-- The return write of `return_book` when other active loans remain: the
loan collection shrinks by one active loan of the targeted reader, deposits
untouched. -/
theorem inv_return_keep (db : DB) (rid : Nat) (t : String) (now : Nat)
    (hrem : get_reader_active_loans
      { db with loans := closeFirst rid t now db.loans } rid ≠ [])
    (h : DepositInv db) :
    DepositInv { db with loans := closeFirst rid t now db.loans } := by
  obtain ⟨hlt, hnd, hdep⟩ := h
  refine ⟨hlt, hnd, ?_⟩
  intro r hr
  obtain ⟨h1, h2⟩ := hdep r hr
  refine ⟨h1, fun ha => ?_⟩
  by_cases he : r.rid = rid
  · exact absurd (he ▸ ha) hrem
  · have hfe : get_reader_active_loans
        { db with loans := closeFirst rid t now db.loans } r.rid =
        get_reader_active_loans db r.rid := by
      simp only [get_reader_active_loans]
      exact closeFirst_filter_other rid r.rid he t now db.loans
    rw [hfe] at ha
    exact h2 ha

/-- The return write of `return_book` when it was the last active loan:
close the loan and reset the deposit to 0. -/
theorem inv_return_reset (db : DB) (rid : Nat) (t : String) (now : Nat)
    (h : DepositInv db) :
    DepositInv (update_reader_deposit
      { db with loans := closeFirst rid t now db.loans } rid 0) := by
  obtain ⟨hlt, hnd, hdep⟩ := h
  refine ⟨?_, ?_, ?_⟩
  · intro r hr
    simp only [update_reader_deposit] at hr
    rcases mem_setDeposit rid 0 db.readers r hr with hr2 | ⟨y, hy, -, hre⟩
    · exact hlt r hr2
    · subst hre
      exact hlt y hy
  · simp only [update_reader_deposit]
    rw [setDeposit_map_rid]
    exact hnd
  · intro r hr
    simp only [update_reader_deposit] at hr
    by_cases he : r.rid = rid
    · have hz : r.deposit_amount = 0 := setDeposit_dep rid 0 db.readers r hnd hr he
      exact ⟨le_of_eq hz.symm, fun _ => hz⟩
    · rcases mem_setDeposit rid 0 db.readers r hr with hr2 | ⟨y, hy, hyr, hre⟩
      · obtain ⟨h1, h2⟩ := hdep r hr2
        refine ⟨h1, fun ha => ?_⟩
        have hfe : get_reader_active_loans (update_reader_deposit
            { db with loans := closeFirst rid t now db.loans } rid 0) r.rid =
            get_reader_active_loans db r.rid := by
          simp only [get_reader_active_loans, update_reader_deposit]
          exact closeFirst_filter_other rid r.rid he t now db.loans
        rw [hfe] at ha
        exact h2 ha
      · refine absurd ?_ he
        rw [hre]
        exact hyr

theorem callOk_none (i : Nat) : callOk none i = true :=
  rfl

theorem callOk_zero (i : Nat) : callOk (some 0) i = false :=
  rfl

theorem main_menuH_db (choice : String) (ud : UserData) (db : DB)
    (emoji : String) (fuel : Option Nat) (out : TurnOut)
    (h : main_menuH choice ud db emoji fuel = .ok out) : out.db = db := by
  unfold main_menuH at h
  split_ifs at h <;>
    first
    | (injection h with h2; subst h2; rfl)
    | exact Except.noConfusion h
    | (split at h <;>
        first
        | (injection h with h2; subst h2; rfl)
        | exact Except.noConfusion h)

theorem reader_nameH_db (text : String) (ud : UserData) (db : DB)
    (emoji : String) (out : TurnOut)
    (h : reader_nameH text ud db emoji = .ok out) : out.db = db := by
  unfold reader_nameH at h
  injection h with h2
  subst h2
  rfl

theorem reader_contactH_db (text : String) (ud : UserData) (db : DB)
    (out : TurnOut) (h : reader_contactH text ud db = .ok out) : out.db = db := by
  cases hn : ud.reader_name with
  | none => simp [reader_contactH, hn] at h
  | some n =>
    simp only [reader_contactH, hn, Except.ok.injEq] at h
    subst h
    rfl

theorem confirm_readerH_db (text : String) (ud : UserData) (db : DB)
    (now : Nat) (fuel : Option Nat) (out : TurnOut)
    (h : confirm_readerH text ud db now fuel = .ok out) :
    out.db = db ∨ ∃ n c, out.db = add_reader db n c 0 now := by
  by_cases ht : text = YES_BTN
  · cases hn : ud.reader_name with
    | none => simp [confirm_readerH, ht, hn] at h
    | some n =>
      cases hc : ud.reader_contact with
      | none => simp [confirm_readerH, ht, hn, hc] at h
      | some c =>
        by_cases ho : callOk fuel 0 = false
        · simp [confirm_readerH, if_pos ht, hn, hc, if_pos ho] at h
        · simp only [confirm_readerH, if_pos ht, hn, hc, if_neg ho,
            Except.ok.injEq] at h
          subst h
          exact Or.inr ⟨n, c, rfl⟩
  · simp only [confirm_readerH, if_neg ht, Except.ok.injEq] at h
    subst h
    exact Or.inl rfl

theorem choose_readerH_db (choice : String) (ud : UserData) (db : DB)
    (fuel : Option Nat) (out : TurnOut)
    (h : choose_readerH choice ud db fuel = .ok out) : out.db = db := by
  unfold choose_readerH at h
  split_ifs at h <;>
    first
    | (injection h with h2; subst h2; rfl)
    | exact Except.noConfusion h
    | (split at h <;>
        first
        | (injection h with h2; subst h2; rfl)
        | exact Except.noConfusion h)

theorem process_bookH_db (text : String) (ud : UserData) (db : DB)
    (fuel : Option Nat) (out : TurnOut)
    (h : process_bookH text ud db fuel = .ok out) : out.db = db := by
  cases hs : ud.selected_reader with
  | none => simp [process_bookH, hs] at h
  | some r =>
    by_cases ho : callOk fuel 0 = false
    · simp [process_bookH, hs, if_pos ho] at h
    · by_cases hl : get_reader_active_loans db r.rid = []
      · simp only [process_bookH, hs, if_neg ho, if_pos hl,
          Except.ok.injEq] at h
        subst h
        rfl
      · simp only [process_bookH, hs, if_neg ho, if_neg hl,
          Except.ok.injEq] at h
        subst h
        rfl

theorem deposit_amount_inputH_db (choice : String) (ud : UserData) (db : DB)
    (out : TurnOut) (h : deposit_amount_inputH choice ud db = .ok out) :
    out.db = db := by
  cases hs : ud.selected_reader with
  | none => simp [deposit_amount_inputH, hs] at h
  | some r =>
    cases hp : ud.pending_book with
    | none => simp [deposit_amount_inputH, hs, hp] at h
    | some bt =>
      by_cases hb : choice = ACTION_BACK
      · simp only [deposit_amount_inputH, hs, hp, if_pos hb, startH,
          Except.ok.injEq] at h
        subst h
        rfl
      · cases hd : parsePyInt choice with
        | none =>
          simp only [deposit_amount_inputH, hs, hp, if_neg hb, hd,
            Except.ok.injEq] at h
          subst h
          rfl
        | some d =>
          simp only [deposit_amount_inputH, hs, hp, if_neg hb, hd,
            Except.ok.injEq] at h
          subst h
          rfl

theorem confirm_bookH_db (text : String) (ud : UserData) (db : DB)
    (now : Nat) (fuel : Option Nat) (out : TurnOut)
    (h : confirm_bookH text ud db now fuel = .ok out) :
    out.db = db ∨
      (∃ rid bt d, 0 < d ∧
        out.db = add_loan (update_reader_deposit db rid d)
          ⟨rid, bt, now, true, none⟩) ∨
      ∃ rid bt, out.db = add_loan db ⟨rid, bt, now, true, none⟩ := by
  by_cases ht : text = YES_BTN
  · cases hs : ud.selected_reader with
    | none => simp [confirm_bookH, ht, hs] at h
    | some r =>
      cases hbt : ud.book_title with
      | none => simp [confirm_bookH, ht, hs, hbt] at h
      | some bt =>
        cases hdn : ud.deposit_needed with
        | none => simp [confirm_bookH, ht, hs, hbt, hdn] at h
        | some d =>
          by_cases hd : d > 0
          · by_cases h0 : callOk fuel 0 = false
            · simp [confirm_bookH, if_pos ht, hs, hbt, hdn, if_pos hd,
                if_pos h0] at h
            · by_cases h1 : callOk fuel 1 = false
              · simp [confirm_bookH, if_pos ht, hs, hbt, hdn, if_pos hd,
                  if_neg h0, if_pos h1] at h
              · simp only [confirm_bookH, if_pos ht, hs, hbt, hdn, if_pos hd,
                  if_neg h0, if_neg h1, Except.ok.injEq] at h
                subst h
                exact Or.inr (Or.inl ⟨r.rid, bt, d, hd, rfl⟩)
          · by_cases h0 : callOk fuel 0 = false
            · simp [confirm_bookH, if_pos ht, hs, hbt, hdn, if_neg hd,
                if_pos h0] at h
            · simp only [confirm_bookH, if_pos ht, hs, hbt, hdn, if_neg hd,
                if_neg h0, Except.ok.injEq] at h
              subst h
              exact Or.inr (Or.inr ⟨r.rid, bt, rfl⟩)
  · simp only [confirm_bookH, if_neg ht, Except.ok.injEq] at h
    subst h
    exact Or.inl rfl

theorem return_bookH_db (choice : String) (ud : UserData) (db : DB)
    (now : Nat) (fuel : Option Nat) (out : TurnOut)
    (h : return_bookH choice ud db now fuel = .ok out) :
    out.db = db ∨
      ∃ rid t,
        (get_reader_active_loans
            { db with loans := closeFirst rid t now db.loans } rid ≠ [] ∧
          out.db = { db with loans := closeFirst rid t now db.loans }) ∨
        out.db = update_reader_deposit
          { db with loans := closeFirst rid t now db.loans } rid 0 := by
  by_cases hb : choice = ACTION_BACK
  · simp only [return_bookH, if_pos hb, startH, Except.ok.injEq] at h
    subst h
    exact Or.inl rfl
  · cases hp : parseReturnChoice choice with
    | none =>
      simp only [return_bookH, if_neg hb, hp, Except.ok.injEq] at h
      subst h
      exact Or.inl rfl
    | some nt =>
      obtain ⟨n, t⟩ := nt
      by_cases h0 : callOk fuel 0 = false
      · simp [return_bookH, if_neg hb, hp, if_pos h0] at h
      · cases hr : get_reader_by_name db n with
        | none =>
          simp only [return_bookH, if_neg hb, hp, if_neg h0, hr,
            Except.ok.injEq] at h
          subst h
          exact Or.inl rfl
        | some r =>
          by_cases h1 : callOk fuel 1 = false
          · simp [return_bookH, if_neg hb, hp, if_neg h0, hr, if_pos h1] at h
          · by_cases hres : db.loans.any (loanMatches r.rid t) = true
            · by_cases h2 : callOk fuel 2 = false
              · simp only [return_bookH, if_neg hb, hp, if_neg h0, hr,
                  if_neg h1, db_return_book, if_pos hres, if_pos h2] at h
                exact Except.noConfusion h
              · by_cases hempty : get_reader_active_loans
                    { db with loans := closeFirst r.rid t now db.loans }
                      r.rid = []
                · by_cases h3 : callOk fuel 3 = false
                  · simp only [return_bookH, if_neg hb, hp, if_neg h0, hr,
                      if_neg h1, db_return_book, if_pos hres, if_neg h2,
                      if_pos hempty, if_pos h3] at h
                    exact Except.noConfusion h
                  · simp only [return_bookH, if_neg hb, hp, if_neg h0, hr,
                      if_neg h1, db_return_book, if_pos hres, if_neg h2,
                      if_pos hempty, if_neg h3, Except.ok.injEq] at h
                    subst h
                    exact Or.inr ⟨r.rid, t, Or.inr rfl⟩
                · simp only [return_bookH, if_neg hb, hp, if_neg h0, hr,
                    if_neg h1, db_return_book, if_pos hres, if_neg h2,
                    if_neg hempty, Except.ok.injEq] at h
                  subst h
                  exact Or.inr ⟨r.rid, t, Or.inl ⟨hempty, rfl⟩⟩
            · simp only [return_bookH, if_neg hb, hp, if_neg h0, hr,
                if_neg h1, db_return_book, if_neg hres, Except.ok.injEq] at h
              rw [Bool.not_eq_true] at hres
              subst h
              refine Or.inl ?_
              show DB.mk db.readers (closeFirst r.rid t now db.loans)
                db.nextId = db
              rw [closeFirst_of_not_any r.rid t now db.loans hres]

theorem select_reader_for_booksH_db (choice : String) (ud : UserData)
    (db : DB) (fuel : Option Nat) (out : TurnOut)
    (h : select_reader_for_booksH choice ud db fuel = .ok out) : out.db = db := by
  by_cases hb : choice = ACTION_BACK
  · simp only [select_reader_for_booksH, if_pos hb, startH,
      Except.ok.injEq] at h
    subst h
    rfl
  · by_cases h0 : callOk fuel 0 = false
    · simp [select_reader_for_booksH, if_neg hb, if_pos h0] at h
    · cases hr : get_reader_by_name db choice with
      | none =>
        simp only [select_reader_for_booksH, if_neg hb, if_neg h0, hr,
          Except.ok.injEq] at h
        subst h
        rfl
      | some r =>
        by_cases h1 : callOk fuel 1 = false
        · simp [select_reader_for_booksH, if_neg hb, if_neg h0, hr,
            if_pos h1] at h
        · by_cases hl : get_reader_active_loans db r.rid = []
          · simp only [select_reader_for_booksH, if_neg hb, if_neg h0, hr,
              if_neg h1, if_pos hl, Except.ok.injEq] at h
            subst h
            rfl
          · simp only [select_reader_for_booksH, if_neg hb, if_neg h0, hr,
              if_neg h1, if_neg hl, Except.ok.injEq] at h
            subst h
            rfl

theorem buildReturnLabels_err (db : DB) (ud : UserData) (fuel : Option Nat) :
    ∀ (c : Nat) (ls : List Loan) (e : UserData × DB),
      buildReturnLabels db ud fuel c ls = .error e → e.2 = db := by
  intro c ls
  induction ls generalizing c with
  | nil => intro e h; simp [buildReturnLabels] at h
  | cons l rest ih =>
    intro e h
    by_cases hc : callOk fuel c = false
    · simp only [buildReturnLabels, if_pos hc, Except.error.injEq] at h
      rw [← h]
    · cases hid : get_reader_by_id db l.reader_id with
      | none =>
        simp only [buildReturnLabels, if_neg hc, hid,
          Except.error.injEq] at h
        rw [← h]
      | some r =>
        cases hrec : buildReturnLabels db ud fuel (c + 1) rest with
        | error e2 =>
          simp only [buildReturnLabels, if_neg hc, hid, hrec,
            Except.error.injEq] at h
          rw [← h]
          exact ih (c + 1) e2 hrec
        | ok ls2 =>
          simp [buildReturnLabels, if_neg hc, hid, hrec] at h

theorem loansListing_err (db : DB) (ud : UserData) (fuel : Option Nat) :
    ∀ (i c : Nat) (ls : List Loan) (e : UserData × DB),
      loansListing db ud fuel i c ls = .error e → e.2 = db := by
  intro i c ls
  induction ls generalizing i c with
  | nil => intro e h; simp [loansListing] at h
  | cons l rest ih =>
    intro e h
    by_cases hc : callOk fuel c = false
    · simp only [loansListing, if_pos hc, Except.error.injEq] at h
      rw [← h]
    · cases hid : get_reader_by_id db l.reader_id with
      | none =>
        simp only [loansListing, if_neg hc, hid, Except.error.injEq] at h
        rw [← h]
      | some r =>
        cases hrec : loansListing db ud fuel (i + 1) (c + 1) rest with
        | error e2 =>
          simp only [loansListing, if_neg hc, hid, hrec,
            Except.error.injEq] at h
          rw [← h]
          exact ih (i + 1) (c + 1) e2 hrec
        | ok s =>
          simp [loansListing, if_neg hc, hid, hrec] at h

theorem main_menuH_err (choice : String) (ud : UserData) (db : DB)
    (emoji : String) (fuel : Option Nat) (e : UserData × DB)
    (h : main_menuH choice ud db emoji fuel = .error e) : e.2 = db := by
  unfold main_menuH at h
  split_ifs at h <;>
    first
    | exact Except.noConfusion h
    | (injection h with h2; rw [← h2])
    | (split at h <;>
        first
        | exact Except.noConfusion h
        | (injection h with h2
           rw [← h2]
           try first
           | exact buildReturnLabels_err db ud fuel 1 _ _ (by assumption)
           | exact loansListing_err db ud fuel 1 1 _ _ (by assumption)))

theorem reader_contactH_err (text : String) (ud : UserData) (db : DB)
    (e : UserData × DB) (h : reader_contactH text ud db = .error e) :
    e.2 = db := by
  cases hn : ud.reader_name with
  | none =>
    simp only [reader_contactH, hn, Except.error.injEq] at h
    rw [← h]
  | some n => simp [reader_contactH, hn] at h

theorem confirm_readerH_err (text : String) (ud : UserData) (db : DB)
    (now : Nat) (fuel : Option Nat) (e : UserData × DB)
    (h : confirm_readerH text ud db now fuel = .error e) : e.2 = db := by
  by_cases ht : text = YES_BTN
  · cases hn : ud.reader_name with
    | none =>
      simp only [confirm_readerH, if_pos ht, hn, Except.error.injEq] at h
      rw [← h]
    | some n =>
      cases hc : ud.reader_contact with
      | none =>
        simp only [confirm_readerH, if_pos ht, hn, hc,
          Except.error.injEq] at h
        rw [← h]
      | some c =>
        by_cases h0 : callOk fuel 0 = false
        · simp only [confirm_readerH, if_pos ht, hn, hc, if_pos h0,
            Except.error.injEq] at h
          rw [← h]
        · simp [confirm_readerH, if_pos ht, hn, hc, if_neg h0] at h
  · simp [confirm_readerH, if_neg ht] at h

theorem choose_readerH_err (choice : String) (ud : UserData) (db : DB)
    (fuel : Option Nat) (e : UserData × DB)
    (h : choose_readerH choice ud db fuel = .error e) : e.2 = db := by
  unfold choose_readerH at h
  split_ifs at h <;>
    first
    | exact Except.noConfusion h
    | (injection h with h2; rw [← h2])
    | (split at h <;>
        first
        | exact Except.noConfusion h
        | (injection h with h2; rw [← h2]))

theorem process_bookH_err (text : String) (ud : UserData) (db : DB)
    (fuel : Option Nat) (e : UserData × DB)
    (h : process_bookH text ud db fuel = .error e) : e.2 = db := by
  cases hs : ud.selected_reader with
  | none =>
    simp only [process_bookH, hs, Except.error.injEq] at h
    rw [← h]
  | some r =>
    by_cases h0 : callOk fuel 0 = false
    · simp only [process_bookH, hs, if_pos h0, Except.error.injEq] at h
      rw [← h]
    · by_cases hl : get_reader_active_loans db r.rid = []
      · simp [process_bookH, hs, if_neg h0, if_pos hl] at h
      · simp [process_bookH, hs, if_neg h0, if_neg hl] at h

theorem deposit_amount_inputH_err (choice : String) (ud : UserData) (db : DB)
    (e : UserData × DB) (h : deposit_amount_inputH choice ud db = .error e) :
    e.2 = db := by
  cases hs : ud.selected_reader with
  | none =>
    simp only [deposit_amount_inputH, hs, Except.error.injEq] at h
    rw [← h]
  | some r =>
    cases hp : ud.pending_book with
    | none =>
      simp only [deposit_amount_inputH, hs, hp, Except.error.injEq] at h
      rw [← h]
    | some bt =>
      by_cases hb : choice = ACTION_BACK
      · simp [deposit_amount_inputH, hs, hp, if_pos hb, startH] at h
      · cases hd : parsePyInt choice with
        | none => simp [deposit_amount_inputH, hs, hp, if_neg hb, hd] at h
        | some d => simp [deposit_amount_inputH, hs, hp, if_neg hb, hd] at h

theorem select_reader_for_booksH_err (choice : String) (ud : UserData)
    (db : DB) (fuel : Option Nat) (e : UserData × DB)
    (h : select_reader_for_booksH choice ud db fuel = .error e) : e.2 = db := by
  unfold select_reader_for_booksH at h
  split_ifs at h <;>
    first
    | exact Except.noConfusion h
    | (injection h with h2; rw [← h2])
    | (split at h <;>
        first
        | exact Except.noConfusion h
        | (injection h with h2; rw [← h2])
        | (split_ifs at h <;>
            first
            | exact Except.noConfusion h
            | (injection h with h2; rw [← h2])))

theorem confirm_bookH_err (text : String) (ud : UserData) (db : DB)
    (now : Nat) (fuel : Option Nat) (e : UserData × DB)
    (hfuel : fuel = none ∨ fuel = some 0)
    (h : confirm_bookH text ud db now fuel = .error e) : e.2 = db := by
  by_cases ht : text = YES_BTN
  · cases hs : ud.selected_reader with
    | none =>
      simp only [confirm_bookH, if_pos ht, hs, Except.error.injEq] at h
      rw [← h]
    | some r =>
      cases hbt : ud.book_title with
      | none =>
        simp only [confirm_bookH, if_pos ht, hs, hbt,
          Except.error.injEq] at h
        rw [← h]
      | some bt =>
        cases hdn : ud.deposit_needed with
        | none =>
          simp only [confirm_bookH, if_pos ht, hs, hbt, hdn,
            Except.error.injEq] at h
          rw [← h]
        | some d =>
          have h1ok : fuel = some 0 ∨ callOk fuel 1 = true := by
            rcases hfuel with hf | hf <;> subst hf
            · exact Or.inr rfl
            · exact Or.inl rfl
          by_cases hd : d > 0
          · by_cases h0 : callOk fuel 0 = false
            · simp only [confirm_bookH, if_pos ht, hs, hbt, hdn, if_pos hd,
                if_pos h0, Except.error.injEq] at h
              rw [← h]
            · rcases hfuel with hf | hf
              · subst hf
                simp [confirm_bookH, if_pos ht, hs, hbt, hdn, if_pos hd,
                  if_neg h0, callOk] at h
              · subst hf
                exact absurd (callOk_zero 0) h0
          · by_cases h0 : callOk fuel 0 = false
            · simp only [confirm_bookH, if_pos ht, hs, hbt, hdn, if_neg hd,
                if_pos h0, Except.error.injEq] at h
              rw [← h]
            · simp [confirm_bookH, if_pos ht, hs, hbt, hdn, if_neg hd,
                if_neg h0] at h
  · simp [confirm_bookH, if_neg ht] at h

theorem return_bookH_err (choice : String) (ud : UserData) (db : DB)
    (now : Nat) (fuel : Option Nat) (e : UserData × DB)
    (hfuel : fuel = none ∨ fuel = some 0)
    (h : return_bookH choice ud db now fuel = .error e) : e.2 = db := by
  by_cases hb : choice = ACTION_BACK
  · simp [return_bookH, if_pos hb, startH] at h
  · cases hp : parseReturnChoice choice with
    | none => simp [return_bookH, if_neg hb, hp] at h
    | some nt =>
      obtain ⟨n, t⟩ := nt
      by_cases h0 : callOk fuel 0 = false
      · simp only [return_bookH, if_neg hb, hp, if_pos h0,
          Except.error.injEq] at h
        rw [← h]
      · have hnone : fuel = none := by
          rcases hfuel with hf | hf
          · exact hf
          · subst hf
            exact absurd (callOk_zero 0) h0
        subst hnone
        cases hr : get_reader_by_name db n with
        | none => simp [return_bookH, if_neg hb, hp, if_neg h0, hr] at h
        | some r =>
          simp only [return_bookH, if_neg hb, hp, if_neg h0, hr,
            db_return_book,
            if_neg (show (¬(callOk none 1 = false)) from by decide),
            if_neg (show (¬(callOk none 2 = false)) from by decide),
            if_neg (show (¬(callOk none 3 = false)) from by decide)] at h
          split at h <;>
            first
            | exact Except.noConfusion h
            | (split at h <;> exact Except.noConfusion h)

/-- Whatever state the dialog is in, one dispatched event with healthy
storage — or storage dead from the turn's first repository call on —
preserves the deposit invariant of the database (failure before the first
call means nothing was written). -/
theorem dispatch_inv (st : BotState) (text : String) (ud : UserData)
    (db : DB) (now : Nat) (emoji : String) (fuel : Option Nat)
    (hfuel : fuel = none ∨ fuel = some 0) (h : DepositInv db) :
    DepositInv (outDB (dispatch st text ud db now emoji fuel) db) := by
  cases st with
  | MAIN_MENU =>
    cases hd : main_menuH text ud db emoji fuel with
    | error e =>
      simp only [dispatch, hd, outDB]
      rw [main_menuH_err text ud db emoji fuel e hd]
      exact h
    | ok out =>
      simp only [dispatch, hd, outDB]
      rw [main_menuH_db text ud db emoji fuel out hd]
      exact h
  | READER_NAME =>
    cases hd : reader_nameH text ud db emoji with
    | error e => simp [reader_nameH] at hd
    | ok out =>
      simp only [dispatch, hd, outDB]
      rw [reader_nameH_db text ud db emoji out hd]
      exact h
  | READER_CONTACT =>
    cases hd : reader_contactH text ud db with
    | error e =>
      simp only [dispatch, hd, outDB]
      rw [reader_contactH_err text ud db e hd]
      exact h
    | ok out =>
      simp only [dispatch, hd, outDB]
      rw [reader_contactH_db text ud db out hd]
      exact h
  | CONFIRM_READER =>
    by_cases hyn : text = YES_BTN ∨ text = NO_BTN
    · cases hd : confirm_readerH text ud db now fuel with
      | error e =>
        simp only [dispatch, if_pos hyn, hd, outDB]
        rw [confirm_readerH_err text ud db now fuel e hd]
        exact h
      | ok out =>
        simp only [dispatch, if_pos hyn, hd, outDB]
        rcases confirm_readerH_db text ud db now fuel out hd with
          he | ⟨n, c, he⟩
        · rw [he]; exact h
        · rw [he]; exact inv_add_reader db n c now h
    · simpa [dispatch, if_neg hyn, outDB] using h
  | CHOOSE_READER =>
    cases hd : choose_readerH text ud db fuel with
    | error e =>
      simp only [dispatch, hd, outDB]
      rw [choose_readerH_err text ud db fuel e hd]
      exact h
    | ok out =>
      simp only [dispatch, hd, outDB]
      rw [choose_readerH_db text ud db fuel out hd]
      exact h
  | PROCESS_BOOK =>
    cases hd : process_bookH text ud db fuel with
    | error e =>
      simp only [dispatch, hd, outDB]
      rw [process_bookH_err text ud db fuel e hd]
      exact h
    | ok out =>
      simp only [dispatch, hd, outDB]
      rw [process_bookH_db text ud db fuel out hd]
      exact h
  | DEPOSIT_AMOUNT =>
    cases hd : deposit_amount_inputH text ud db with
    | error e =>
      simp only [dispatch, hd, outDB]
      rw [deposit_amount_inputH_err text ud db e hd]
      exact h
    | ok out =>
      simp only [dispatch, hd, outDB]
      rw [deposit_amount_inputH_db text ud db out hd]
      exact h
  | CONFIRM_BOOK =>
    by_cases hyn : text = YES_BTN ∨ text = NO_BTN
    · cases hd : confirm_bookH text ud db now fuel with
      | error e =>
        simp only [dispatch, if_pos hyn, hd, outDB]
        rw [confirm_bookH_err text ud db now fuel e hfuel hd]
        exact h
      | ok out =>
        simp only [dispatch, if_pos hyn, hd, outDB]
        rcases confirm_bookH_db text ud db now fuel out hd with
          he | ⟨rid, bt, d, hdpos, he⟩ | ⟨rid, bt, he⟩
        · rw [he]; exact h
        · rw [he]; exact inv_checkout db rid bt now d hdpos h
        · rw [he]; exact inv_add_loan db _ h
    · simpa [dispatch, if_neg hyn, outDB] using h
  | RETURN_BOOK =>
    cases hd : return_bookH text ud db now fuel with
    | error e =>
      simp only [dispatch, hd, outDB]
      rw [return_bookH_err text ud db now fuel e hfuel hd]
      exact h
    | ok out =>
      simp only [dispatch, hd, outDB]
      rcases return_bookH_db text ud db now fuel out hd with
        he | ⟨rid, t, ⟨hrem, he⟩ | he⟩
      · rw [he]; exact h
      · rw [he]; exact inv_return_keep db rid t now hrem h
      · rw [he]; exact inv_return_reset db rid t now h
  | SELECT_READER_FOR_BOOKS =>
    cases hd : select_reader_for_booksH text ud db fuel with
    | error e =>
      simp only [dispatch, hd, outDB]
      rw [select_reader_for_booksH_err text ud db fuel e hd]
      exact h
    | ok out =>
      simp only [dispatch, hd, outDB]
      rw [select_reader_for_booksH_db text ud db fuel out hd]
      exact h
  | ADD_READER => simpa [dispatch, outDB] using h
  | READER_BOOKS => simpa [dispatch, outDB] using h

/-- One full turn preserves the deposit invariant. -/
theorem turn_inv (st : BotState) (text : String) (ud : UserData) (db : DB)
    (now : Nat) (emoji : String) (ok : Bool) (h : DepositInv db) :
    DepositInv (turn st text ud db now emoji ok).db := by
  have hfuel : (if ok then none else some 0 : Option Nat) = none ∨
      (if ok then none else some 0 : Option Nat) = some 0 := by
    cases ok
    · exact Or.inr rfl
    · exact Or.inl rfl
  unfold turn turnF
  by_cases h1 : text = "/start"
  · rw [if_pos h1]
    exact h
  · rw [if_neg h1]
    by_cases h2 : isCommand text = true
    · rw [if_pos h2]
      exact h
    · rw [if_neg h2]
      have hinv := dispatch_inv st text ud db now emoji
        (if ok then none else some 0) hfuel h
      cases hd : dispatch st text ud db now emoji
          (if ok then none else some 0) with
      | ok out =>
        rw [hd] at hinv
        simpa [outDB] using hinv
      | error e =>
        rw [hd] at hinv
        simpa [outDB] using hinv

/-- Every snapshot reachable from a fresh deployment satisfies the deposit
invariant. -/
theorem reachable_inv (c : Config) (h : Reachable c) : DepositInv c.db := by
  induction h with
  | init =>
    refine ⟨?_, ?_, ?_⟩ <;> simp [initConfig, DepositInv]
  | step c i _ ih => exact turn_inv c.st i.text c.ud c.db i.now i.emoji i.repoOk ih

/-- Any sequence of further turns keeps a snapshot reachable. -/
theorem reachable_runTrace (c : Config) (h : Reachable c) :
    ∀ is : List TInput, Reachable (runTrace c is) := by
  intro is
  induction is generalizing c with
  | nil => exact h
  | cons i rest ih => exact ih (stepCfg c i) (Reachable.step c i h)

/-- A non-command event other than `/start` is routed to the states table. -/
theorem turn_dispatch (st : BotState) (text : String) (ud : UserData)
    (db : DB) (now : Nat) (emoji : String) (ok : Bool)
    (h1 : text ≠ "/start") (h2 : isCommand text = false) :
    turn st text ud db now emoji ok =
      match dispatch st text ud db now emoji
          (if ok then none else some 0) with
      | .ok out => out
      | .error e => ⟨st, e.1, e.2, []⟩ := by
  unfold turn turnF
  rw [if_neg h1, if_neg (by simp [h2])]

/-- With healthy storage the routing specialises to fuel `none`. -/
theorem turn_dispatch_true (st : BotState) (text : String) (ud : UserData)
    (db : DB) (now : Nat) (emoji : String)
    (h1 : text ≠ "/start") (h2 : isCommand text = false) :
    turn st text ud db now emoji true =
      match dispatch st text ud db now emoji none with
      | .ok out => out
      | .error e => ⟨st, e.1, e.2, []⟩ := by
  unfold turn turnF
  rw [if_neg h1, if_neg (by simp [h2])]
  rfl


/-- C7 (amended): in every reachable session, every reader's
`deposit_amount` is a non-negative integer, and it is 0 whenever the reader
holds no active loans at all; every turn of the state machine preserves
this.  (The original biconditional with "an active loan whose checkout
required a deposit" fails, see the counterexample.) -/
theorem c7_deposit_invariant (c : Config) (h : Reachable c) :
    ∀ r ∈ c.db.readers, 0 ≤ r.deposit_amount ∧
      (get_reader_active_loans c.db r.rid = [] → r.deposit_amount = 0) :=
  (reachable_inv c h).2.2

theorem c7_witness :
    0 ≤ annDoc.deposit_amount ∧ annDoc.deposit_amount = 0 :=
  ⟨(c7_deposit_invariant regCfg
      (reachable_runTrace initConfig Reachable.init regInputs) annDoc
      (by decide)).1,
   (c7_deposit_invariant regCfg
      (reachable_runTrace initConfig Reachable.init regInputs) annDoc
      (by decide)).2 (by decide)⟩

/-- C7 counterexample: after checking out `Dune` for Ann with deposit 20,
checking out `LOTR` through the no-deposit branch (the session jumps from
title entry straight to `CONFIRM_BOOK` with pending deposit 0), and
returning `Dune`, Ann's only active loan is `LOTR` — whose checkout required
no deposit — while her `deposit_amount` is still 20, not 0. -/
theorem c7_counterexample :
    lotrConfirmCfg.st = BotState.CONFIRM_BOOK ∧
    lotrConfirmCfg.ud.deposit_needed = some 0 ∧
    c7FinalCfg.db.readers = [⟨0, "Ann 🐶", "555-1234", 20, 0⟩] ∧
    get_reader_active_loans c7FinalCfg.db 0 = [⟨0, "LOTR", 0, true, none⟩] ∧
    (20 : Int) ≠ 0 := by
  refine ⟨?_, ?_, ?_, ?_, ?_⟩ <;> decide

/-- C8 (amended): when a repository call raises, the exception is fatal for
that turn only: the turn still produces a result (the process does not
crash), the session stays in the state it was in so the action can be
retried, and no failure message is sent to the user — the registered
`error` callback only logs.  The database, however, is NOT rolled back:
whatever the turn wrote before the failing call persists (the payload
`e.2` carries the collections as mutated so far, e.g. the deposit written
by `confirm_book` before `add_loan` raised). -/
theorem c8_storage_failure (st : BotState) (text : String) (ud : UserData)
    (db : DB) (now : Nat) (emoji : String) (fuel : Option Nat)
    (e : UserData × DB)
    (h1 : text ≠ "/start") (h2 : isCommand text = false)
    (hfail : dispatch st text ud db now emoji fuel = .error e) :
    turnF st text ud db now emoji fuel = ⟨st, e.1, e.2, []⟩ := by
  unfold turnF
  rw [if_neg h1, if_neg (by simp [h2]), hfail]

theorem c8_witness :
    turnF BotState.CONFIRM_BOOK YES_BTN
        ⟨none, none, some annDoc, some "Dune", none, some 5⟩
        regCfg.db 0 "🐶" (some 1) =
      ⟨BotState.CONFIRM_BOOK,
        ⟨none, none, some annDoc, some "Dune", none, some 5⟩,
        update_reader_deposit regCfg.db 0 5, []⟩ :=
  c8_storage_failure BotState.CONFIRM_BOOK YES_BTN
    ⟨none, none, some annDoc, some "Dune", none, some 5⟩
    regCfg.db 0 "🐶" (some 1)
    (⟨none, none, some annDoc, some "Dune", none, some 5⟩,
      update_reader_deposit regCfg.db 0 5)
    (by decide) (by decide) (by rfl)

/-- C8 counterexample: confirming a registration while storage is down
produces no outgoing message at all — in particular no generic failure
message — while the session stays parked in `CONFIRM_READER`. -/
theorem c8_counterexample :
    (turn BotState.CONFIRM_READER YES_BTN regCfg.ud regCfg.db 0 "🐶" false).msgs
      = [] ∧
    (turn BotState.CONFIRM_READER YES_BTN regCfg.ud regCfg.db 0 "🐶" false).state
      = BotState.CONFIRM_READER := by
  constructor <;> decide

/-- C9: selecting checkout, return, or the per-reader listing from the main
menu with an empty registry (no readers, respectively no active loans) does
not enter the choosing state: a non-empty "nothing found" reply is sent and
the session is back at the main menu. -/
theorem c9_empty_registry (ud : UserData) (db : DB) (now : Nat)
    (emoji : String) :
    (db.readers = [] →
      turn BotState.MAIN_MENU ACTION_CHECK_OUT_BOOK ud db now emoji true =
        ⟨BotState.MAIN_MENU, ud, db,
          ["❌ Нет читателей.", "Выберите действие:"]⟩) ∧
    (get_active_loans db = [] →
      turn BotState.MAIN_MENU ACTION_RETURN_BOOK ud db now emoji true =
        ⟨BotState.MAIN_MENU, ud, db, ["❌ Пусто.", "Выберите действие:"]⟩) ∧
    (db.readers = [] →
      turn BotState.MAIN_MENU ACTION_SELECT_READER_FOR_BOOKS ud db now emoji
          true =
        ⟨BotState.MAIN_MENU, ud, db,
          ["❌ Нет читателей.", "Выберите действие:"]⟩) ∧
    ("❌ Нет читателей." : String) ≠ "" ∧ ("❌ Пусто." : String) ≠ "" := by
  refine ⟨?_, ?_, ?_, by decide, by decide⟩
  · intro he
    rw [turn_dispatch _ _ _ _ _ _ _ (by decide) (by decide)]
    simp only [dispatch]
    simp +decide [main_menuH, get_all_readers, he]
  · intro he
    rw [turn_dispatch _ _ _ _ _ _ _ (by decide) (by decide)]
    simp only [dispatch]
    simp +decide [main_menuH, he]
  · intro he
    rw [turn_dispatch _ _ _ _ _ _ _ (by decide) (by decide)]
    simp only [dispatch]
    simp +decide [main_menuH, get_all_readers, he]

theorem c9_witness :
    turn BotState.MAIN_MENU ACTION_CHECK_OUT_BOOK UserData.empty ⟨[], [], 0⟩
        0 "🐶" true =
      ⟨BotState.MAIN_MENU, UserData.empty, ⟨[], [], 0⟩,
        ["❌ Нет читателей.", "Выберите действие:"]⟩ ∧
    turn BotState.MAIN_MENU ACTION_RETURN_BOOK UserData.empty ⟨[], [], 0⟩
        0 "🐶" true =
      ⟨BotState.MAIN_MENU, UserData.empty, ⟨[], [], 0⟩,
        ["❌ Пусто.", "Выберите действие:"]⟩ ∧
    turn BotState.MAIN_MENU ACTION_SELECT_READER_FOR_BOOKS UserData.empty
        ⟨[], [], 0⟩ 0 "🐶" true =
      ⟨BotState.MAIN_MENU, UserData.empty, ⟨[], [], 0⟩,
        ["❌ Нет читателей.", "Выберите действие:"]⟩ :=
  ⟨(c9_empty_registry UserData.empty ⟨[], [], 0⟩ 0 "🐶").1 rfl,
   (c9_empty_registry UserData.empty ⟨[], [], 0⟩ 0 "🐶").2.1 rfl,
   (c9_empty_registry UserData.empty ⟨[], [], 0⟩ 0 "🐶").2.2.1 rfl⟩

/-- C10: in `DEPOSIT_AMOUNT` every integer string — negative and zero
included — is accepted as the pending deposit and the session advances to
`CONFIRM_BOOK`; on Yes the deposit write happens only for a strictly
positive pending deposit, so confirming an entered deposit ≤ 0 leaves the
stored readers (hence the reader's `deposit_amount`) unchanged and the
reply omits the deposit-received sentence. -/
theorem c10_deposit_input (choice : String) (ud : UserData) (db : DB)
    (now : Nat) (emoji : String) (r : Reader) (bt : String) (d : Int)
    (hsel : ud.selected_reader = some r) (hpb : ud.pending_book = some bt)
    (hparse : parsePyInt choice = some d)
    (hc : isCommand choice = false) (hnb : choice ≠ ACTION_BACK) :
    turn BotState.DEPOSIT_AMOUNT choice ud db now emoji true =
      ⟨BotState.CONFIRM_BOOK,
        { ud with deposit_needed := some d, book_title := some bt }, db,
        ["Читатель: " ++ r.name ++ "\nКнига: " ++ bt ++ "\nЗалог: " ++
          toString d ++ "\n\nВсё верно?"]⟩ ∧
    (d ≤ 0 → ∀ ud2 : UserData, ud2.selected_reader = some r →
      ud2.book_title = some bt → ud2.deposit_needed = some d →
      turn BotState.CONFIRM_BOOK YES_BTN ud2 db now emoji true =
        ⟨BotState.MAIN_MENU, ud2, add_loan db ⟨r.rid, bt, now, true, none⟩,
          ["Книга \x22" ++ bt ++ "\x22 выдана " ++ r.name ++ ".",
           "Выберите действие:"]⟩) := by
  have hns : choice ≠ "/start" := by
    intro hcon
    rw [hcon] at hc
    simp [isCommand] at hc
  constructor
  · rw [turn_dispatch_true _ _ _ _ _ _ hns hc]
    simp only [dispatch, deposit_amount_inputH, hsel, hpb, if_neg hnb, hparse]
  · intro hd ud2 hsel2 hbt2 hdn2
    rw [turn_dispatch_true _ _ _ _ _ _ (by decide) (by decide)]
    simp only [dispatch]
    rw [if_pos (Or.inl trivial)]
    have hdle : ¬d > 0 := by omega
    simp only [confirm_bookH, if_pos (show YES_BTN = YES_BTN from rfl),
      hsel2, hbt2, hdn2, if_neg hdle,
      if_neg (show (¬(callOk none 0 = false)) from by decide)]
    simp

theorem c10_witness :
    turn BotState.DEPOSIT_AMOUNT "0"
        ⟨none, none, some annDoc, none, some "Dune", none⟩ regCfg.db 0 "🐶"
        true =
      ⟨BotState.CONFIRM_BOOK,
        ⟨none, none, some annDoc, some "Dune", some "Dune", some 0⟩,
        regCfg.db,
        ["Читатель: Ann 🐶\nКнига: Dune\nЗалог: 0\n\nВсё верно?"]⟩ ∧
    turn BotState.CONFIRM_BOOK YES_BTN
        ⟨none, none, some annDoc, some "Dune", some "Dune", some 0⟩ regCfg.db
        0 "🐶" true =
      ⟨BotState.MAIN_MENU,
        ⟨none, none, some annDoc, some "Dune", some "Dune", some 0⟩,
        add_loan regCfg.db ⟨0, "Dune", 0, true, none⟩,
        ["Книга \x22Dune\x22 выдана Ann 🐶.", "Выберите действие:"]⟩ := by
  have h := c10_deposit_input "0"
    ⟨none, none, some annDoc, none, some "Dune", none⟩ regCfg.db 0 "🐶"
    annDoc "Dune" 0 rfl rfl (by decide) (by decide) (by decide)
  refine ⟨?_, ?_⟩
  · have h1 := h.1
    simpa [annDoc] using h1
  · have h2 := h.2 (by decide)
      ⟨none, none, some annDoc, some "Dune", some "Dune", some 0⟩ rfl rfl rfl
    simpa [annDoc] using h2

/-- C5 (corrected): a `/start` from any state does return the session to
`MainMenu`, but the scratch is left exactly as it was rather than cleared
(`context.user_data` is never cleared anywhere in src/bot.py); likewise a
completed registration keeps the collected values in scratch. -/
theorem c5_start_keeps_scratch (st : BotState) (ud : UserData) (db : DB)
    (now : Nat) (emoji : String) (ok : Bool) :
    turn st "/start" ud db now emoji ok =
      ⟨BotState.MAIN_MENU, ud, db, ["Выберите действие:"]⟩ ∧
    (∀ x, ud.reader_name = some x →
      (turn BotState.CONFIRM_READER YES_BTN ud db now emoji ok).ud.reader_name
        = some x) := by
  constructor
  · unfold turn turnF
    rw [if_pos rfl]
  · intro x hx
    rw [turn_dispatch _ _ _ _ _ _ _ (by decide) (by decide)]
    simp only [dispatch]
    rw [if_pos (Or.inl trivial)]
    cases ok <;> cases hcc : ud.reader_contact with
    | none => simp [confirm_readerH, hx, hcc]
    | some c => simp [confirm_readerH, hx, hcc, callOk]

theorem c5_witness :
    turn BotState.DEPOSIT_AMOUNT "/start" duneCfg.ud duneCfg.db 0 "🐶" true =
      ⟨BotState.MAIN_MENU, duneCfg.ud, duneCfg.db, ["Выберите действие:"]⟩ ∧
    (turn BotState.CONFIRM_READER YES_BTN duneCfg.ud duneCfg.db 0 "🐶"
        true).ud.reader_name = some "Ann 🐶" :=
  ⟨(c5_start_keeps_scratch BotState.DEPOSIT_AMOUNT duneCfg.ud duneCfg.db 0
      "🐶" true).1,
   (c5_start_keeps_scratch BotState.CONFIRM_READER duneCfg.ud duneCfg.db 0
      "🐶" true).2 "Ann 🐶" (by decide)⟩

/-- C5 counterexample: right after a completed registration flow the session
is back at `MainMenu`, yet the scratch still holds the collected reader
name and contact — it is not empty; and a subsequent `/start` still does not
clear it. -/
theorem c5_counterexample :
    regCfg.st = BotState.MAIN_MENU ∧
    regCfg.ud.reader_name = some "Ann 🐶" ∧
    regCfg.ud.reader_contact = some "555-1234" ∧
    (stepCfg regCfg (demoIn "/start")).ud ≠ UserData.empty := by
  refine ⟨?_, ?_, ?_, ?_⟩ <;> decide

/-- C6 (amended): bad input in a choosing state modifies no records, and in
all but one case the session stays in the same state and re-prompts: a name
matching no reader in `CHOOSE_READER` or `SELECT_READER_FOR_BOOKS`, an
unparseable label or a label naming an unknown reader in `RETURN_BOOK`, and
a non-integer in `DEPOSIT_AMOUNT`.  The exception: a label that resolves to
an existing reader but matches none of that reader's active loans sends an
error reply and falls back to the main menu rather than staying in
`RETURN_BOOK`. -/
theorem c6_unresolvable_inputs (choice : String) (ud : UserData) (db : DB)
    (now : Nat) (emoji : String)
    (hc : isCommand choice = false) (hnb : choice ≠ ACTION_BACK) :
    (get_reader_by_name db choice = none →
      turn BotState.CHOOSE_READER choice ud db now emoji true =
        ⟨BotState.CHOOSE_READER, ud, db, ["Читатель не найден."]⟩) ∧
    (get_reader_by_name db choice = none →
      turn BotState.SELECT_READER_FOR_BOOKS choice ud db now emoji true =
        ⟨BotState.SELECT_READER_FOR_BOOKS, ud, db,
          ["Читатель не найден. Пожалуйста, выберите из списка."]⟩) ∧
    (parseReturnChoice choice = none →
      turn BotState.RETURN_BOOK choice ud db now emoji true =
        ⟨BotState.RETURN_BOOK, ud, db,
          ["Что-то не так с выбором. Пожалуйста, выберите из списка."]⟩) ∧
    (∀ n t, parseReturnChoice choice = some (n, t) →
      get_reader_by_name db n = none →
      turn BotState.RETURN_BOOK choice ud db now emoji true =
        ⟨BotState.RETURN_BOOK, ud, db, ["Читатель не найден."]⟩) ∧
    (∀ n t r, parseReturnChoice choice = some (n, t) →
      get_reader_by_name db n = some r →
      db.loans.any (loanMatches r.rid t) = false →
      turn BotState.RETURN_BOOK choice ud db now emoji true =
        ⟨BotState.MAIN_MENU, ud, db,
          ["Произошла ошибка при обработке возврата книги.",
           "Выберите действие:"]⟩) ∧
    (∀ r bt, ud.selected_reader = some r → ud.pending_book = some bt →
      parsePyInt choice = none →
      turn BotState.DEPOSIT_AMOUNT choice ud db now emoji true =
        ⟨BotState.DEPOSIT_AMOUNT, ud, db,
          ["Не, нужно же было ввести число!"]⟩) := by
  have hns : choice ≠ "/start" := by
    intro hcon
    rw [hcon] at hc
    simp [isCommand] at hc
  refine ⟨?_, ?_, ?_, ?_, ?_, ?_⟩
  · intro hr
    rw [turn_dispatch_true _ _ _ _ _ _ hns hc]
    simp only [dispatch, choose_readerH, if_neg hnb,
      if_neg (show (¬(callOk none 0 = false)) from by decide), hr]
  · intro hr
    rw [turn_dispatch_true _ _ _ _ _ _ hns hc]
    simp only [dispatch, select_reader_for_booksH, if_neg hnb,
      if_neg (show (¬(callOk none 0 = false)) from by decide), hr]
  · intro hp
    rw [turn_dispatch_true _ _ _ _ _ _ hns hc]
    simp only [dispatch, return_bookH, if_neg hnb, hp]
  · intro n t hp hr
    rw [turn_dispatch_true _ _ _ _ _ _ hns hc]
    simp only [dispatch, return_bookH, if_neg hnb, hp,
      if_neg (show (¬(callOk none 0 = false)) from by decide), hr]
  · intro n t r hp hr hfalse
    rw [turn_dispatch_true _ _ _ _ _ _ hns hc]
    simp only [dispatch, return_bookH, if_neg hnb, hp,
      if_neg (show (¬(callOk none 0 = false)) from by decide), hr,
      if_neg (show (¬(callOk none 1 = false)) from by decide),
      db_return_book,
      if_neg (by simp [hfalse] : ¬(db.loans.any (loanMatches r.rid t) = true))]
    rw [closeFirst_of_not_any r.rid t now db.loans hfalse]
  · intro r bt hsel hpb hparse
    rw [turn_dispatch_true _ _ _ _ _ _ hns hc]
    simp only [dispatch, deposit_amount_inputH, hsel, hpb, if_neg hnb, hparse]

theorem c6_witness :
    turn BotState.CHOOSE_READER "Ghost" UserData.empty regCfg.db 0 "🐶" true =
      ⟨BotState.CHOOSE_READER, UserData.empty, regCfg.db,
        ["Читатель не найден."]⟩ ∧
    turn BotState.RETURN_BOOK "Ann 🐶: Ghost" UserData.empty duneCfg.db 0 "🐶"
        true =
      ⟨BotState.MAIN_MENU, UserData.empty, duneCfg.db,
        ["Произошла ошибка при обработке возврата книги.",
         "Выберите действие:"]⟩ :=
  ⟨(c6_unresolvable_inputs "Ghost" UserData.empty regCfg.db 0 "🐶"
      (by decide) (by decide)).1 (by decide),
   (c6_unresolvable_inputs "Ann 🐶: Ghost" UserData.empty duneCfg.db 0 "🐶"
      (by decide) (by decide)).2.2.2.2.1 "Ann 🐶" "Ghost"
      ⟨0, "Ann 🐶", "555-1234", 20, 0⟩ (by decide) (by decide) (by decide)⟩

/-- C6 counterexample: in `RETURN_BOOK`, the label `"Ann 🐶: Ghost"` parses
and resolves to the registered reader Ann but matches none of her active
loans; the claim says the session stays in `RETURN_BOOK`, but the code
sends an error reply and goes back to the main menu (records untouched). -/
theorem c6_counterexample :
    returnStateCfg.st = BotState.RETURN_BOOK ∧
    (stepCfg returnStateCfg (demoIn "Ann 🐶: Ghost")).st =
      BotState.MAIN_MENU ∧
    (stepCfg returnStateCfg (demoIn "Ann 🐶: Ghost")).db =
      returnStateCfg.db := by
  refine ⟨?_, ?_, ?_⟩ <;> decide

/-- C3 (amended): a completed registration (name, contact, Yes) creates
exactly one new Reader whose contact is exactly the supplied string and
whose `deposit_amount` is 0 — but whose stored name is the supplied name
with a space and a random emoji appended (`reader_name` decorates the text
before storing it); on No, no record of any kind is created. -/
theorem c3_registration (nm ct : String) (ud : UserData) (db : DB)
    (n1 n2 n3 : Nat) (e1 e2 e3 : String)
    (hc1 : isCommand nm = false) (hc2 : isCommand ct = false) :
    ((runTrace ⟨BotState.READER_NAME, ud, db⟩
        [⟨nm, n1, e1, true⟩, ⟨ct, n2, e2, true⟩,
         ⟨YES_BTN, n3, e3, true⟩]).st = BotState.MAIN_MENU ∧
     (runTrace ⟨BotState.READER_NAME, ud, db⟩
        [⟨nm, n1, e1, true⟩, ⟨ct, n2, e2, true⟩,
         ⟨YES_BTN, n3, e3, true⟩]).db.readers =
       db.readers ++ [⟨db.nextId, nm ++ " " ++ e1, ct, 0, n3⟩] ∧
     (runTrace ⟨BotState.READER_NAME, ud, db⟩
        [⟨nm, n1, e1, true⟩, ⟨ct, n2, e2, true⟩,
         ⟨YES_BTN, n3, e3, true⟩]).db.loans = db.loans) ∧
    ((runTrace ⟨BotState.READER_NAME, ud, db⟩
        [⟨nm, n1, e1, true⟩, ⟨ct, n2, e2, true⟩,
         ⟨NO_BTN, n3, e3, true⟩]).st = BotState.MAIN_MENU ∧
     (runTrace ⟨BotState.READER_NAME, ud, db⟩
        [⟨nm, n1, e1, true⟩, ⟨ct, n2, e2, true⟩,
         ⟨NO_BTN, n3, e3, true⟩]).db = db) := by
  have hns1 : nm ≠ "/start" := by
    intro hcon
    rw [hcon] at hc1
    simp [isCommand] at hc1
  have hns2 : ct ≠ "/start" := by
    intro hcon
    rw [hcon] at hc2
    simp [isCommand] at hc2
  have ho1 : turn BotState.READER_NAME nm ud db n1 e1 true =
      ⟨BotState.READER_CONTACT,
        { ud with reader_name := some (nm ++ " " ++ e1) }, db,
        ["☎️ Контактные данные (телефон, e-mail, telegram, etc.):"]⟩ := by
    rw [turn_dispatch _ _ _ _ _ _ _ hns1 hc1]
    simp only [dispatch, reader_nameH]
  have ho2 : turn BotState.READER_CONTACT ct
      { ud with reader_name := some (nm ++ " " ++ e1) } db n2 e2 true =
      ⟨BotState.CONFIRM_READER,
        { ud with reader_name := some (nm ++ " " ++ e1),
                  reader_contact := some ct }, db,
        ["Имя: " ++ (nm ++ " " ++ e1) ++ "\nКонтакт: " ++ ct]⟩ := by
    rw [turn_dispatch _ _ _ _ _ _ _ hns2 hc2]
    simp only [dispatch, reader_contactH]
  have ho3y : turn BotState.CONFIRM_READER YES_BTN
      { ud with reader_name := some (nm ++ " " ++ e1),
                reader_contact := some ct } db n3 e3 true =
      ⟨BotState.MAIN_MENU,
        { ud with reader_name := some (nm ++ " " ++ e1),
                  reader_contact := some ct },
        add_reader db (nm ++ " " ++ e1) ct 0 n3,
        ["Читатель " ++ (nm ++ " " ++ e1) ++ " добавлен!",
         "Выберите действие:"]⟩ := by
    rw [turn_dispatch_true _ _ _ _ _ _ (by decide) (by decide)]
    simp only [dispatch]
    rw [if_pos (Or.inl trivial)]
    simp [confirm_readerH,
      if_neg (show (¬(callOk none 0 = false)) from by decide)]
  have ho3n : turn BotState.CONFIRM_READER NO_BTN
      { ud with reader_name := some (nm ++ " " ++ e1),
                reader_contact := some ct } db n3 e3 true =
      ⟨BotState.MAIN_MENU,
        { ud with reader_name := some (nm ++ " " ++ e1),
                  reader_contact := some ct }, db,
        ["Галя, у нас отмена!", "Выберите действие:"]⟩ := by
    rw [turn_dispatch _ _ _ _ _ _ _ (by decide) (by decide)]
    simp only [dispatch]
    rw [if_pos (Or.inr trivial)]
    simp [confirm_readerH, if_neg (by decide : ¬(NO_BTN = YES_BTN))]
  refine ⟨⟨?_, ?_, ?_⟩, ⟨?_, ?_⟩⟩ <;>
    simp only [runTrace, stepCfg, ho1, ho2, ho3y, ho3n, add_reader]

theorem c3_witness :
    (runTrace ⟨BotState.READER_NAME, UserData.empty, ⟨[], [], 0⟩⟩
        [⟨"Ann", 0, "🐶", true⟩, ⟨"555-1234", 0, "🐶", true⟩,
         ⟨YES_BTN, 0, "🐶", true⟩]).db.readers =
      [⟨0, "Ann 🐶", "555-1234", 0, 0⟩] ∧
    (runTrace ⟨BotState.READER_NAME, UserData.empty, ⟨[], [], 0⟩⟩
        [⟨"Ann", 0, "🐶", true⟩, ⟨"555-1234", 0, "🐶", true⟩,
         ⟨NO_BTN, 0, "🐶", true⟩]).db = ⟨[], [], 0⟩ := by
  have h := c3_registration "Ann" "555-1234" UserData.empty ⟨[], [], 0⟩
    0 0 0 "🐶" "🐶" "🐶" (by decide) (by decide)
  exact ⟨by simpa using h.1.2.1, h.2.2⟩

/-- C3 counterexample: registering with the supplied name `"Ann"` stores a
Reader named `"Ann 🐶"` — the supplied string with a random emoji appended —
so the stored name does not equal the string the user supplied. -/
theorem c3_counterexample :
    regCfg.db.readers = [⟨0, "Ann 🐶", "555-1234", 0, 0⟩] ∧
    ("Ann 🐶" : String) ≠ "Ann" := by
  constructor <;> decide

/-- C2: a return selection that resolves to reader `r` and matches one of
`r`'s active loans closes exactly the first matching loan (`is_active`
false, `return_date` set), leaves every other loan and every other reader's
active-loan list untouched, and: if that was `r`'s only active loan, `r`'s
deposit is reset to 0 and the reply reports the deposit that was on file
before the reset; if other active loans remain, the readers collection is
unchanged and the reply only confirms the return. -/
theorem c2_return_matching_loan (choice n t : String) (ud : UserData)
    (db : DB) (now : Nat) (emoji : String) (r : Reader)
    (hc : isCommand choice = false) (hnb : choice ≠ ACTION_BACK)
    (hp : parseReturnChoice choice = some (n, t))
    (hr : get_reader_by_name db n = some r)
    (hm : db.loans.any (loanMatches r.rid t) = true) :
    (turn BotState.RETURN_BOOK choice ud db now emoji true).state =
      BotState.MAIN_MENU ∧
    (turn BotState.RETURN_BOOK choice ud db now emoji true).db.loans =
      closeFirst r.rid t now db.loans ∧
    (∃ pre l0 post, db.loans = pre ++ l0 :: post ∧
      (∀ l ∈ pre, loanMatches r.rid t l = false) ∧
      loanMatches r.rid t l0 = true ∧
      (turn BotState.RETURN_BOOK choice ud db now emoji true).db.loans =
        pre ++ { l0 with is_active := false, return_date := some now } ::
          post) ∧
    get_reader_active_loans
        (turn BotState.RETURN_BOOK choice ud db now emoji true).db r.rid =
      eraseFirstWithTitle t (get_reader_active_loans db r.rid) ∧
    (∀ rid2, rid2 ≠ r.rid →
      get_reader_active_loans
          (turn BotState.RETURN_BOOK choice ud db now emoji true).db rid2 =
        get_reader_active_loans db rid2) ∧
    (eraseFirstWithTitle t (get_reader_active_loans db r.rid) = [] →
      (turn BotState.RETURN_BOOK choice ud db now emoji true).db.readers =
        setDeposit r.rid 0 db.readers ∧
      (turn BotState.RETURN_BOOK choice ud db now emoji true).msgs =
        ["Книга \x22" ++ t ++ "\x22 возвращена.\nЭто последняя книга " ++
          n ++ ". Верните залог " ++ toString r.deposit_amount ++ ".",
         "Выберите действие:"]) ∧
    (eraseFirstWithTitle t (get_reader_active_loans db r.rid) ≠ [] →
      (turn BotState.RETURN_BOOK choice ud db now emoji true).db.readers =
        db.readers ∧
      (turn BotState.RETURN_BOOK choice ud db now emoji true).msgs =
        ["Книга \x22" ++ t ++ "\x22 возвращена.", "Выберите действие:"]) := by
  have hns : choice ≠ "/start" := by
    intro hcon
    rw [hcon] at hc
    simp [isCommand] at hc
  have heq : get_reader_active_loans
      { db with loans := closeFirst r.rid t now db.loans } r.rid =
      eraseFirstWithTitle t (get_reader_active_loans db r.rid) := by
    simp only [get_reader_active_loans]
    exact closeFirst_filter_self r.rid t now db.loans
  have key : turn BotState.RETURN_BOOK choice ud db now emoji true =
      if eraseFirstWithTitle t (get_reader_active_loans db r.rid) = [] then
        ⟨BotState.MAIN_MENU, ud,
          update_reader_deposit
            { db with loans := closeFirst r.rid t now db.loans } r.rid 0,
          ["Книга \x22" ++ t ++ "\x22 возвращена.\nЭто последняя книга " ++
            n ++ ". Верните залог " ++ toString r.deposit_amount ++ ".",
           "Выберите действие:"]⟩
      else
        ⟨BotState.MAIN_MENU, ud,
          { db with loans := closeFirst r.rid t now db.loans },
          ["Книга \x22" ++ t ++ "\x22 возвращена.", "Выберите действие:"]⟩ := by
    rw [turn_dispatch_true _ _ _ _ _ _ hns hc]
    simp only [dispatch, return_bookH, if_neg hnb, hp,
      if_neg (show (¬(callOk none 0 = false)) from by decide), hr,
      if_neg (show (¬(callOk none 1 = false)) from by decide),
      if_neg (show (¬(callOk none 2 = false)) from by decide),
      if_neg (show (¬(callOk none 3 = false)) from by decide),
      db_return_book, if_pos hm, heq]
    split_ifs <;> rfl
  obtain ⟨pre, l0, post, hdec, hpre, hl0, hcf⟩ :=
    closeFirst_decomp r.rid t now db.loans hm
  rw [key]
  by_cases hrem : eraseFirstWithTitle t (get_reader_active_loans db r.rid) = []
  · rw [if_pos hrem]
    refine ⟨rfl, by simp [update_reader_deposit], ?_, ?_, ?_, ?_, ?_⟩
    · exact ⟨pre, l0, post, hdec, hpre, hl0, by
        simp only [update_reader_deposit]
        exact hcf⟩
    · simp only [update_reader_deposit, get_reader_active_loans]
      exact closeFirst_filter_self r.rid t now db.loans
    · intro rid2 hne
      simp only [update_reader_deposit, get_reader_active_loans]
      exact closeFirst_filter_other r.rid rid2 hne t now db.loans
    · intro _
      exact ⟨by simp [update_reader_deposit], rfl⟩
    · intro hcon
      exact absurd hrem hcon
  · rw [if_neg hrem]
    refine ⟨rfl, rfl, ?_, ?_, ?_, ?_, ?_⟩
    · exact ⟨pre, l0, post, hdec, hpre, hl0, hcf⟩
    · simp only [get_reader_active_loans]
      exact closeFirst_filter_self r.rid t now db.loans
    · intro rid2 hne
      simp only [get_reader_active_loans]
      exact closeFirst_filter_other r.rid rid2 hne t now db.loans
    · intro hcon
      exact absurd hcon hrem
    · intro _
      exact ⟨rfl, rfl⟩

theorem c2_witness :
    (turn BotState.RETURN_BOOK "Ann 🐶: Dune" UserData.empty duneCfg.db 1
        "🐶" true).db.readers =
      setDeposit 0 0 duneCfg.db.readers ∧
    (turn BotState.RETURN_BOOK "Ann 🐶: Dune" UserData.empty duneCfg.db 1
        "🐶" true).msgs =
      ["Книга \x22Dune\x22 возвращена.\nЭто последняя книга Ann 🐶. Верните залог 20.",
       "Выберите действие:"] := by
  have h := c2_return_matching_loan "Ann 🐶: Dune" "Ann 🐶" "Dune"
    UserData.empty duneCfg.db 1 "🐶" ⟨0, "Ann 🐶", "555-1234", 20, 0⟩
    (by decide) (by decide) (by decide) (by decide) (by decide)
  have h2 := h.2.2.2.2.2.1 (by decide)
  exact h2

/-- C1 (amended): in a checkout flow confirmed with Yes, if the selected
reader had zero active loans at the title-entry step the session passes
through the deposit prompt, exactly one new active Loan is created, and the
reader's `deposit_amount` is set to the entered integer when that integer
is strictly positive — an entered amount ≤ 0 is accepted by the prompt but
the deposit write is skipped, leaving `deposit_amount` unchanged.  If the
reader already had at least one active loan, the title entry goes straight
to confirmation (no deposit prompt), the Loan is created and the readers
collection is untouched. -/
theorem c1_checkout_flow (title amtStr : String) (ud : UserData) (db : DB)
    (n1 n2 n3 : Nat) (e1 e2 e3 : String) (r r0 : Reader) (d : Int)
    (hsel : ud.selected_reader = some r)
    (hbyid : get_reader_by_id db r.rid = some r0)
    (hc1 : isCommand title = false) (hc2 : isCommand amtStr = false)
    (hnb : amtStr ≠ ACTION_BACK) (hparse : parsePyInt amtStr = some d) :
    (get_reader_active_loans db r.rid = [] →
      (stepCfg ⟨BotState.PROCESS_BOOK, ud, db⟩ ⟨title, n1, e1, true⟩).st =
        BotState.DEPOSIT_AMOUNT ∧
      (runTrace ⟨BotState.PROCESS_BOOK, ud, db⟩
        [⟨title, n1, e1, true⟩, ⟨amtStr, n2, e2, true⟩]).st =
        BotState.CONFIRM_BOOK ∧
      (runTrace ⟨BotState.PROCESS_BOOK, ud, db⟩
        [⟨title, n1, e1, true⟩, ⟨amtStr, n2, e2, true⟩,
         ⟨YES_BTN, n3, e3, true⟩]).st = BotState.MAIN_MENU ∧
      (runTrace ⟨BotState.PROCESS_BOOK, ud, db⟩
        [⟨title, n1, e1, true⟩, ⟨amtStr, n2, e2, true⟩,
         ⟨YES_BTN, n3, e3, true⟩]).db.loans =
        db.loans ++ [⟨r.rid, title, n3, true, none⟩] ∧
      get_reader_by_id (runTrace ⟨BotState.PROCESS_BOOK, ud, db⟩
        [⟨title, n1, e1, true⟩, ⟨amtStr, n2, e2, true⟩,
         ⟨YES_BTN, n3, e3, true⟩]).db r.rid =
        some { r0 with deposit_amount :=
          if 0 < d then d else r0.deposit_amount }) ∧
    (get_reader_active_loans db r.rid ≠ [] →
      (stepCfg ⟨BotState.PROCESS_BOOK, ud, db⟩ ⟨title, n1, e1, true⟩).st =
        BotState.CONFIRM_BOOK ∧
      (runTrace ⟨BotState.PROCESS_BOOK, ud, db⟩
        [⟨title, n1, e1, true⟩, ⟨YES_BTN, n3, e3, true⟩]).st =
        BotState.MAIN_MENU ∧
      (runTrace ⟨BotState.PROCESS_BOOK, ud, db⟩
        [⟨title, n1, e1, true⟩, ⟨YES_BTN, n3, e3, true⟩]).db.loans =
        db.loans ++ [⟨r.rid, title, n3, true, none⟩] ∧
      (runTrace ⟨BotState.PROCESS_BOOK, ud, db⟩
        [⟨title, n1, e1, true⟩, ⟨YES_BTN, n3, e3, true⟩]).db.readers =
        db.readers) := by
  have hns1 : title ≠ "/start" := by
    intro hcon
    rw [hcon] at hc1
    simp [isCommand] at hc1
  have hns2 : amtStr ≠ "/start" := by
    intro hcon
    rw [hcon] at hc2
    simp [isCommand] at hc2
  constructor
  · intro h0
    have ho1 : turn BotState.PROCESS_BOOK title ud db n1 e1 true =
        ⟨BotState.DEPOSIT_AMOUNT,
          { ud with book_title := some title, pending_book := some title },
          db,
          ["Введите сумму залога для " ++ r.name ++ " или выберите сумму:"]⟩ := by
      rw [turn_dispatch_true _ _ _ _ _ _ hns1 hc1]
      simp only [dispatch, process_bookH, hsel,
        if_neg (show (¬(callOk none 0 = false)) from by decide), if_pos h0]
    have ho2 : turn BotState.DEPOSIT_AMOUNT amtStr
        { ud with book_title := some title, pending_book := some title } db
        n2 e2 true =
        ⟨BotState.CONFIRM_BOOK,
          { ud with book_title := some title, pending_book := some title,
                    deposit_needed := some d }, db,
          ["Читатель: " ++ r.name ++ "\nКнига: " ++ title ++ "\nЗалог: " ++
            toString d ++ "\n\nВсё верно?"]⟩ := by
      rw [turn_dispatch_true _ _ _ _ _ _ hns2 hc2]
      simp only [dispatch, deposit_amount_inputH, hsel, if_neg hnb, hparse]
    have ho3 : turn BotState.CONFIRM_BOOK YES_BTN
        { ud with book_title := some title, pending_book := some title,
                  deposit_needed := some d } db n3 e3 true =
        if 0 < d then
          ⟨BotState.MAIN_MENU,
            { ud with book_title := some title, pending_book := some title,
                      deposit_needed := some d },
            add_loan (update_reader_deposit db r.rid d)
              ⟨r.rid, title, n3, true, none⟩,
            ["Книга \x22" ++ title ++ "\x22 выдана " ++ r.name ++
              ". Залог " ++ toString d ++ " получен.", "Выберите действие:"]⟩
        else
          ⟨BotState.MAIN_MENU,
            { ud with book_title := some title, pending_book := some title,
                      deposit_needed := some d },
            add_loan db ⟨r.rid, title, n3, true, none⟩,
            ["Книга \x22" ++ title ++ "\x22 выдана " ++ r.name ++ ".",
             "Выберите действие:"]⟩ := by
      rw [turn_dispatch_true _ _ _ _ _ _ (by decide) (by decide)]
      simp only [dispatch]
      rw [if_pos (Or.inl trivial)]
      simp only [confirm_bookH, if_pos (show YES_BTN = YES_BTN from rfl),
        hsel, if_neg (show (¬(callOk none 0 = false)) from by decide),
        if_neg (show (¬(callOk none 1 = false)) from by decide)]
      by_cases hd : d > 0
      · rw [if_pos hd, if_pos hd]
        simp
      · rw [if_neg hd, if_neg hd]
        simp
    refine ⟨?_, ?_, ?_, ?_, ?_⟩
    · simp only [stepCfg, ho1]
    · simp only [runTrace, stepCfg, ho1, ho2]
    · simp only [runTrace, stepCfg, ho1, ho2, ho3]
      by_cases hd : 0 < d
      · rw [if_pos hd]
      · rw [if_neg hd]
    · simp only [runTrace, stepCfg, ho1, ho2, ho3]
      by_cases hd : 0 < d
      · rw [if_pos hd]
        simp [add_loan, update_reader_deposit]
      · rw [if_neg hd]
        simp [add_loan]
    · simp only [runTrace, stepCfg, ho1, ho2, ho3]
      by_cases hd : 0 < d
      · rw [if_pos hd, if_pos hd]
        simp only [get_reader_by_id, add_loan, update_reader_deposit]
        rw [find?_setDeposit]
        rw [show db.readers.find? (fun x => x.rid == r.rid) = some r0 from hbyid]
        rfl
      · rw [if_neg hd, if_neg hd]
        simp only [get_reader_by_id, add_loan]
        rw [show db.readers.find? (fun x => x.rid == r.rid) = some r0 from hbyid]
  · intro h1
    have ho1 : turn BotState.PROCESS_BOOK title ud db n1 e1 true =
        ⟨BotState.CONFIRM_BOOK,
          { ud with book_title := some title, deposit_needed := some 0 }, db,
          [r.name ++
            " уже имеет активные выдачи книг. Залог не требуется.\n\nВыдаем \x22" ++
            title ++ "\x22?"]⟩ := by
      rw [turn_dispatch_true _ _ _ _ _ _ hns1 hc1]
      simp only [dispatch, process_bookH, hsel,
        if_neg (show (¬(callOk none 0 = false)) from by decide), if_neg h1]
    have ho2 : turn BotState.CONFIRM_BOOK YES_BTN
        { ud with book_title := some title, deposit_needed := some 0 } db
        n3 e3 true =
        ⟨BotState.MAIN_MENU,
          { ud with book_title := some title, deposit_needed := some 0 },
          add_loan db ⟨r.rid, title, n3, true, none⟩,
          ["Книга \x22" ++ title ++ "\x22 выдана " ++ r.name ++ ".",
           "Выберите действие:"]⟩ := by
      rw [turn_dispatch_true _ _ _ _ _ _ (by decide) (by decide)]
      simp only [dispatch]
      rw [if_pos (Or.inl trivial)]
      simp only [confirm_bookH, if_pos (show YES_BTN = YES_BTN from rfl),
        hsel, if_neg (by decide : ¬((0 : Int) > 0)),
        if_neg (show (¬(callOk none 0 = false)) from by decide)]
      simp
    refine ⟨?_, ?_, ?_, ?_⟩
    · simp only [stepCfg, ho1]
    · simp only [runTrace, stepCfg, ho1, ho2]
    · simp only [runTrace, stepCfg, ho1, ho2, add_loan]
    · simp only [runTrace, stepCfg, ho1, ho2, add_loan]

theorem c1_witness :
    get_reader_by_id (runTrace ⟨BotState.PROCESS_BOOK,
        ⟨none, none, some annDoc, none, none, none⟩, regCfg.db⟩
      [⟨"Dune", 0, "🐶", true⟩, ⟨"20", 0, "🐶", true⟩,
       ⟨YES_BTN, 0, "🐶", true⟩]).db annDoc.rid =
      some { annDoc with deposit_amount :=
        if 0 < (20 : Int) then 20 else annDoc.deposit_amount } ∧
    (runTrace ⟨BotState.PROCESS_BOOK,
        ⟨none, none, some annDoc, none, none, none⟩, regCfg.db⟩
      [⟨"Dune", 0, "🐶", true⟩, ⟨"20", 0, "🐶", true⟩,
       ⟨YES_BTN, 0, "🐶", true⟩]).db.loans =
      regCfg.db.loans ++ [⟨annDoc.rid, "Dune", 0, true, none⟩] := by
  have h := c1_checkout_flow "Dune" "20"
    ⟨none, none, some annDoc, none, none, none⟩ regCfg.db 0 0 0 "🐶" "🐶" "🐶"
    annDoc annDoc 20 rfl (by decide) (by decide) (by decide) (by decide)
    (by decide)
  exact ⟨(h.1 (by decide)).2.2.2.2, (h.1 (by decide)).2.2.2.1⟩

/-- C1 counterexample: a checkout flow for a reader with zero active loans
where the entered deposit is `-5` (accepted by the prompt) and confirmed
with Yes: the loan is created, but the reader's stored `deposit_amount`
remains 0 instead of being set to the entered amount `-5`. -/
theorem c1_counterexample :
    parsePyInt "-5" = some (-5) ∧
    negDepositCfg.st = BotState.MAIN_MENU ∧
    negDepositCfg.db.loans = [⟨0, "Dune", 0, true, none⟩] ∧
    negDepositCfg.db.readers = [⟨0, "Ann 🐶", "555-1234", 0, 0⟩] ∧
    ((0 : Int) = -5) = False := by
  refine ⟨?_, ?_, ?_, ?_, ?_⟩ <;> decide

/-- C4 (amended): a generated return label parses back to exactly the
`(readerId, bookTitle)` pair it was generated from provided the reader name
and the book title contain no occurrence of the separator `": "`, neither
carries leading or trailing whitespace (the parser strips both fields), and
the labelled reader is the first reader in the collection bearing that name
(`get_reader_by_name` is first-match).  Labels violating any of these
conditions can fail to round-trip, see the counterexample. -/
theorem c4_label_roundtrip (db : DB) (l : Loan) (r : Reader)
    (hl : l ∈ get_active_loans db)
    (hid : get_reader_by_id db l.reader_id = some r)
    (hname : splitCS r.name.data = [r.name.data])
    (htitle : splitCS l.book_title.data = [l.book_title.data])
    (hsn : pyStrip r.name.data = r.name.data)
    (hst : pyStrip l.book_title.data = l.book_title.data)
    (hfirst : get_reader_by_name db r.name = some r) :
    resolveReturnChoice db (returnLabel r l) =
      some (l.reader_id, l.book_title) := by
  have hrid : r.rid = l.reader_id := by
    have h2 := List.find?_some hid
    simpa using h2
  have hdata : (returnLabel r l).data =
      r.name.data ++ ':' :: ' ' :: l.book_title.data := by
    have h1 : (returnLabel r l).data =
        (r.name.data ++ ": ".data) ++ l.book_title.data := by
      simp [returnLabel, String.data_append]
    rw [h1, show (": ".data) = [':', ' '] from rfl, List.append_assoc]
    rfl
  have hsplit : splitCS (returnLabel r l).data =
      [r.name.data, l.book_title.data] := by
    rw [hdata, splitCS_append l.book_title.data r.name.data hname, htitle]
  unfold resolveReturnChoice parseReturnChoice
  rw [hsplit]
  show (match get_reader_by_name db (⟨pyStrip r.name.data⟩ : String) with
        | none => none
        | some rr =>
          some (rr.rid, (⟨pyStrip l.book_title.data⟩ : String)))
      = some (l.reader_id, l.book_title)
  rw [hsn, hst]
  show (match get_reader_by_name db r.name with
        | none => none
        | some rr => some (rr.rid, l.book_title))
      = some (l.reader_id, l.book_title)
  rw [hfirst]
  show some (r.rid, l.book_title) = some (l.reader_id, l.book_title)
  rw [hrid]

theorem c4_witness :
    resolveReturnChoice duneCfg.db
        (returnLabel ⟨0, "Ann 🐶", "555-1234", 20, 0⟩
          ⟨0, "Dune", 0, true, none⟩) =
      some (0, "Dune") := by
  have h := c4_label_roundtrip duneCfg.db ⟨0, "Dune", 0, true, none⟩
    ⟨0, "Ann 🐶", "555-1234", 20, 0⟩ (by decide) (by decide) (by decide)
    (by decide) (by decide) (by decide) (by decide)
  exact h

/-- C4 counterexample: Ann checked out a book titled `"X: Y"`; the label the
return keyboard would carry is `"Ann 🐶: X: Y"`, whose `split(": ")` yields
three parts, so parsing it back fails (`none`) instead of resolving to the
`(readerId, bookTitle)` pair it was generated from. -/
theorem c4_counterexample :
    get_active_loans sepTitleCfg.db = [⟨0, "X: Y", 0, true, none⟩] ∧
    get_reader_by_id sepTitleCfg.db 0 =
      some ⟨0, "Ann 🐶", "555-1234", 20, 0⟩ ∧
    returnLabel ⟨0, "Ann 🐶", "555-1234", 20, 0⟩ ⟨0, "X: Y", 0, true, none⟩ =
      "Ann 🐶: X: Y" ∧
    resolveReturnChoice sepTitleCfg.db "Ann 🐶: X: Y" = none := by
  refine ⟨?_, ?_, ?_, ?_⟩ <;> decide

end MoominBot
